/-
Verification of the Phone2Splat capture pipeline (Python sources under
`server/`) against its natural-language specification.

The Python modules are shallowly embedded: pure fragments become Lean
functions, stateful code becomes explicit state passing, machine floats
whose uses here are exact decimal arithmetic and order comparisons are
modelled as rationals (ℚ), and filesystem/PIL/CSV/JSON effects are
modelled as explicit outcome parameters.  Source reference points are
given as `file:line` comments next to each definition.
-/
import Mathlib

namespace Phone2Splat

/-! ### Python string primitives on character lists

Python compares `str` values lexicographically by code point; `pathlib`
sorts `Path` objects inside one directory the same way.  We model the
needed primitives over `List Char` (`String.data`) to keep everything
kernel-computable. -/

/-- Split a character list at every occurrence of `sep`, like Python's
`str.split(sep)` for a single-character separator. -/
def splitOnChar (sep : Char) (cs : List Char) : List (List Char) :=
  cs.foldr
    (fun c acc =>
      if c = sep then [] :: acc
      else
        match acc with
        | [] => [[c]]
        | a :: rest => (c :: a) :: rest)
    [[]]

/-- Value of a digit character run, most significant first (caller checks
that all characters are digits). -/
def natOfDigits (cs : List Char) : ℕ :=
  cs.foldl (fun a c => 10 * a + (c.toNat - 48)) 0

/-- Code-point lexicographic `≤` on character lists: Python's string
comparison. -/
def charListLe : List Char → List Char → Bool
  | [], _ => true
  | _ :: _, [] => false
  | a :: as, b :: bs =>
    if a.toNat < b.toNat then true
    else if b.toNat < a.toNat then false
    else charListLe as bs

/-- Python's `a <= b` on strings. -/
def pyStrLe (a b : String) : Prop := charListLe a.data b.data = true

/-- Python's strict `a < b` on strings. -/
def pyStrLt (a b : String) : Prop := pyStrLe a b ∧ a ≠ b

instance : DecidableRel pyStrLe := fun a b =>
  inferInstanceAs (Decidable (charListLe a.data b.data = true))

/-- Python's `s.startswith(pre)`. -/
def pyStartsWith (s pre : String) : Bool := pre.data.isPrefixOf s.data

/-! ### Timestamp parsing (`validate_capture.py:76-82`)

`parse_timestamp` does `float(Path(filename).stem)` under `try/except`,
returning `0.0` on `ValueError`.  `parseFloat?` models Python's `float()`
on plain signed decimal literals (`[+-]? digits [. digits]`, at least one
digit); exponent/`inf`/`nan`/whitespace forms do not occur in frame
filenames, which the producer formats as `f"{timestamp:.6f}.jpg"`
(`frame_processor.py:221-222`). -/

/-- Python `float(s)` on a plain decimal literal, as an exact rational;
`none` models `ValueError`. -/
def parseFloat? (cs : List Char) : Option ℚ :=
  let signNeg := cs.headD ' ' = '-'
  let body := if signNeg ∨ cs.headD ' ' = '+' then cs.tail else cs
  let val? : Option ℚ :=
    match splitOnChar '.' body with
    | [ip] =>
      if ip.isEmpty ∨ ¬ ip.all Char.isDigit then none
      else some (natOfDigits ip : ℚ)
    | [ip, fp] =>
      if (ip.isEmpty ∧ fp.isEmpty) ∨ ¬ ip.all Char.isDigit ∨ ¬ fp.all Char.isDigit then none
      else some ((natOfDigits ip : ℚ) + (natOfDigits fp : ℚ) / (10 : ℚ) ^ fp.length)
    | _ => none
  val?.map (fun v => if signNeg then -v else v)

/-- The characters of `Path(filename).stem`: the name with its last
dot-suffix removed.  (Names matched by `glob("*.jpg")` never start with a
dot, so pathlib's hidden-file special case cannot arise.) -/
def stemOf (cs : List Char) : List Char :=
  match splitOnChar '.' cs with
  | [] => cs
  | [_] => cs
  | parts => List.intercalate ['.'] parts.dropLast

/-- `parse_timestamp` (`validate_capture.py:76-82`): `float` of the stem,
with `ValueError` mapped to `0.0`. -/
def parse_timestamp (filename : String) : ℚ :=
  (parseFloat? (stemOf filename.data)).getD 0

/-! ### Configuration constants (`config.py:55-68`) -/

def MIN_FRAMES : ℕ := 30
def MAX_FRAME_GAP : ℚ := 1/2
def MAX_FRAME_GAP_ERROR : ℚ := 2
def MIN_DURATION : ℚ := 3

/-! ### ValidationResult (`validate_capture.py:30-73`)

Error/warning/info messages are interpolated strings in the source; every
`add_error`/`add_warning`/`add_info` call site uses a distinct message
prefix, so messages are modelled by one constructor per call site,
carrying the interpolated data.  The `intrinsics: dict` field is not
carried (no claim reads it); all other fields are. -/

/-- One constructor per `add_error` call site in `validate_capture.py`. -/
inductive VErr
  | pathMissing                -- line 99
  | rgbMissing                 -- line 112
  | noFrames                   -- line 119
  | tooFewFrames (n : ℕ)       -- line 123
  | noTimestamps               -- line 133
  | tooShort (d : ℚ)           -- line 140
  | notMonotonic               -- line 173
  | imageReadError             -- line 201
  deriving DecidableEq, BEq, Repr

/-- One constructor per `add_warning` call site in `validate_capture.py`. -/
inductive VWarn
  | largeGap (i : ℕ) (g : ℚ)                    -- line 159
  | gapsExceeded (n : ℕ)                        -- line 168
  | resolutionChanged                           -- line 188
  | resolutionInconsistentAt (idx : ℕ)          -- line 197
  | imuEmpty                                    -- line 217
  | lowImuRate                                  -- line 224
  | imuStartsLate                               -- line 236
  | imuEndsEarly                                -- line 238
  | imuReadError                                -- line 244
  | noImuFile                                   -- line 246
  | missingIntrinsicFields (missing : List String)  -- line 263
  | intrinsicsResolutionMismatch                -- line 270
  | intrinsicsReadError                         -- line 275
  | noIntrinsicsFile                            -- line 277
  | rgbTxtCountMismatch (lines : ℕ)             -- line 289
  | rgbTxtReadError                             -- line 293
  | noRgbTxt                                    -- line 295
  deriving DecidableEq, BEq, Repr

/-- One constructor per `add_info` call site in `validate_capture.py`. -/
inductive VInfo
  | lowFps          -- line 302
  | highFps         -- line 305
  | largeCapture    -- line 308
  | shortCapture    -- line 311
  deriving DecidableEq, BEq, Repr

/-- `ValidationResult` (`validate_capture.py:30-61`), with the dataclass
defaults. -/
structure ValidationResult where
  session_id : String
  is_valid : Bool := true
  quality_score : ℤ := 100
  frame_count : ℕ := 0
  duration_sec : ℚ := 0
  avg_fps : ℚ := 0
  min_fps : ℚ := 0
  max_fps : ℚ := 0
  width : ℕ := 0
  height : ℕ := 0
  resolution_consistent : Bool := true
  imu_records : ℕ := 0
  imu_synced : Bool := true
  imu_avg_offset_ms : ℚ := 0
  has_intrinsics : Bool := false
  errors : List VErr := []
  warnings : List VWarn := []
  info : List VInfo := []
  deriving DecidableEq, Repr

/-- `ValidationResult.add_error` (`validate_capture.py:63-66`). -/
def ValidationResult.add_error (r : ValidationResult) (msg : VErr) (penalty : ℤ) :
    ValidationResult :=
  { r with
    errors := r.errors ++ [msg]
    quality_score := max 0 (r.quality_score - penalty)
    is_valid := false }

/-- `ValidationResult.add_warning` (`validate_capture.py:68-70`). -/
def ValidationResult.add_warning (r : ValidationResult) (msg : VWarn) (penalty : ℤ) :
    ValidationResult :=
  { r with
    warnings := r.warnings ++ [msg]
    quality_score := max 0 (r.quality_score - penalty) }

/-- `ValidationResult.add_info` (`validate_capture.py:72-73`). -/
def ValidationResult.add_info (r : ValidationResult) (msg : VInfo) : ValidationResult :=
  { r with info := r.info ++ [msg] }

/-! ### validate_session (`validate_capture.py:85-313`)

The frame/timestamp phase (lines 95-173) and the advisory info phase
(lines 301-311) are computed exactly from the directory's `*.jpg`
filenames.  The image/IMU/intrinsics/rgb.txt phases (lines 179-295) read
file contents through PIL/csv/json, which are outside the embedding;
their effect on the result is a sequence of the events below, one
constructor per mutation those phases can perform, applied in program
order.  A `SessionFS` value describes one session directory as the
function observes it. -/

/-- One constructor per mutation of `result` that the image, IMU,
intrinsics and rgb.txt phases (`validate_capture.py:179-295`) can
perform, in the penalty/flag form of its call site. -/
inductive TailEvent
  | setSize (w h : ℕ)                               -- line 182
  | warnResolutionChanged                           -- lines 187-188
  | warnResolutionInconsistent (idx : ℕ)            -- lines 196-197
  | errImageRead                                    -- line 201
  | setImuRecords (n : ℕ)                           -- line 214
  | warnImuEmpty                                    -- line 217
  | warnLowImuRate                                  -- line 224
  | warnImuStartsLate                               -- line 236
  | warnImuEndsEarly                                -- line 238
  | setImuOffset (q : ℚ)                            -- line 241
  | warnImuReadError                                -- line 244
  | warnNoImuFile                                   -- lines 246-247 (also clears imu_synced)
  | setHasIntrinsics                                -- line 257
  | warnMissingIntrinsicFields (missing : List String)  -- line 263
  | warnIntrinsicsResolutionMismatch                -- lines 270-272
  | warnIntrinsicsReadError                         -- line 275
  | warnNoIntrinsics                                -- line 277
  | warnRgbTxtMismatch (lines : ℕ)                  -- lines 289-290
  | warnRgbTxtReadError                             -- line 293
  | warnNoRgbTxt                                    -- line 295
  deriving DecidableEq, Repr

/-- Apply one tail event with the exact penalty of its call site. -/
def applyTailEvent (r : ValidationResult) : TailEvent → ValidationResult
  | .setSize w h => { r with width := w, height := h }
  | .warnResolutionChanged =>
      ValidationResult.add_warning { r with resolution_consistent := false } .resolutionChanged 10
  | .warnResolutionInconsistent idx =>
      ValidationResult.add_warning { r with resolution_consistent := false }
        (.resolutionInconsistentAt idx) 5
  | .errImageRead => r.add_error .imageReadError 20
  | .setImuRecords n => { r with imu_records := n }
  | .warnImuEmpty => r.add_warning .imuEmpty 10
  | .warnLowImuRate => r.add_warning .lowImuRate 5
  | .warnImuStartsLate => r.add_warning .imuStartsLate 5
  | .warnImuEndsEarly => r.add_warning .imuEndsEarly 5
  | .setImuOffset q => { r with imu_avg_offset_ms := q }
  | .warnImuReadError => r.add_warning .imuReadError 10
  | .warnNoImuFile =>
      ValidationResult.add_warning { r with imu_synced := false } .noImuFile 15
  | .setHasIntrinsics => { r with has_intrinsics := true }
  | .warnMissingIntrinsicFields missing =>
      r.add_warning (.missingIntrinsicFields missing) 5
  | .warnIntrinsicsResolutionMismatch => r.add_warning .intrinsicsResolutionMismatch 10
  | .warnIntrinsicsReadError => r.add_warning .intrinsicsReadError 10
  | .warnNoIntrinsics => r.add_warning .noIntrinsicsFile 15
  | .warnRgbTxtMismatch n => r.add_warning (.rgbTxtCountMismatch n) 5
  | .warnRgbTxtReadError => r.add_warning .rgbTxtReadError 5
  | .warnNoRgbTxt => r.add_warning .noRgbTxt 5

/-- A session directory as `validate_session` observes it.  `jpgNames` is
the (unordered) result of `rgb_dir.glob("*.jpg")`; `tailEvents` is the
event sequence produced by the content-dependent phases (see above). -/
structure SessionFS where
  name : String
  pathExists : Bool
  rgbExists : Bool
  jpgNames : List String
  tailEvents : List TailEvent
  deriving DecidableEq, Repr

/-- Consecutive deltas `timestamps[i] - timestamps[i-1]`
(`validate_capture.py:150-152`). -/
def deltasOf : List ℚ → List ℚ
  | a :: b :: rest => (b - a) :: deltasOf (b :: rest)
  | _ => []

/-- The gap loop (`validate_capture.py:150-161`): adds one `largeGap`
warning (penalty 5) per delta exceeding `MAX_FRAME_GAP_ERROR`, with the
loop index `i` starting at 1. -/
def gapWarnLoop (r : ValidationResult) : List ℚ → ℕ → ValidationResult
  | [], _ => r
  | g :: rest, i =>
      gapWarnLoop
        (if MAX_FRAME_GAP_ERROR < g then r.add_warning (.largeGap i g) 5 else r)
        rest (i + 1)

/-- The monotonicity test (`validate_capture.py:171`):
`all(timestamps[i] <= timestamps[i+1] ...)`. -/
def monoCheck : List ℚ → Bool
  | a :: b :: rest => decide (a ≤ b) && monoCheck (b :: rest)
  | _ => true

/-- Frame filenames in the order `sorted(rgb_dir.glob("*.jpg"))` produces
(`validate_capture.py:115`): lexicographic by code point. -/
def sortedFrames (fs : SessionFS) : List String :=
  List.insertionSort pyStrLe fs.jpgNames

/-- The timestamp list the temporal checks use
(`validate_capture.py:126-130`): parses every sorted frame name and keeps
the values `> 0`. -/
def usedTimestamps (fs : SessionFS) : List ℚ :=
  ((sortedFrames fs).map parse_timestamp).filter (fun t => 0 < t)

/-- Line 137: `result.duration_sec = timestamps[-1] - timestamps[0]`. -/
def setDuration (r : ValidationResult) (dur : ℚ) : ValidationResult :=
  { r with duration_sec := dur }

/-- Lines 139-140: the minimum-duration error. -/
def checkMinDuration (r : ValidationResult) : ValidationResult :=
  if r.duration_sec < MIN_DURATION then r.add_error (.tooShort r.duration_sec) 20 else r

/-- Lines 142-143: `result.avg_fps = result.frame_count / result.duration_sec`. -/
def setAvgFps (r : ValidationResult) : ValidationResult :=
  if 0 < r.duration_sec then { r with avg_fps := (r.frame_count : ℚ) / r.duration_sec } else r

/-- Lines 163-165: `result.min_fps = min(fps_values)` and the max, when
`fps_values` is nonempty. -/
def setMinMaxFps (r : ValidationResult) (fpsValues : List ℚ) : ValidationResult :=
  match fpsValues with
  | [] => r
  | f :: rest => { r with min_fps := rest.foldl min f, max_fps := rest.foldl max f }

/-- Lines 167-168: the aggregate gap warning, issued once when any gap
exceeded the soft threshold. -/
def checkLargeGaps (r : ValidationResult) (largeGaps : ℕ) : ValidationResult :=
  if 0 < largeGaps then r.add_warning (.gapsExceeded largeGaps) 5 else r

/-- Lines 170-173: the monotonicity error. -/
def checkMono (r : ValidationResult) (timestamps : List ℚ) : ValidationResult :=
  if monoCheck timestamps = true then r else r.add_error .notMonotonic 30

/-- Lines 179-295: the content-dependent phases, as their event trace. -/
def tailPhase (evs : List TailEvent) (r : ValidationResult) : ValidationResult :=
  evs.foldl applyTailEvent r

/-- Lines 301-302. -/
def infoLowFps (r : ValidationResult) : ValidationResult :=
  if r.avg_fps < 8 then r.add_info .lowFps else r

/-- Lines 304-305. -/
def infoHighFps (r : ValidationResult) : ValidationResult :=
  if 20 < r.avg_fps then r.add_info .highFps else r

/-- Lines 307-308. -/
def infoLargeCapture (r : ValidationResult) : ValidationResult :=
  if 500 < r.frame_count then r.add_info .largeCapture else r

/-- Lines 310-311. -/
def infoShortCapture (r : ValidationResult) : ValidationResult :=
  if r.duration_sec < 10 then r.add_info .shortCapture else r

/-- `validate_session` (`validate_capture.py:85-313`), assembled from the
phase functions above in source order. -/
def validate_session (fs : SessionFS) : ValidationResult :=
  let r0 : ValidationResult := { session_id := fs.name }
  if fs.pathExists = false then r0.add_error .pathMissing 100          -- lines 98-100
  else if fs.rgbExists = false then r0.add_error .rgbMissing 100       -- lines 111-113
  else
    let frames := sortedFrames fs                                      -- line 115
    let r1 := { r0 with frame_count := frames.length }                 -- line 116
    if frames.length = 0 then r1.add_error .noFrames 100               -- lines 118-120
    else
      let r2 := if frames.length < MIN_FRAMES
        then r1.add_error (.tooFewFrames frames.length) 30 else r1     -- lines 122-123
      let timestamps := usedTimestamps fs                              -- lines 126-130
      if timestamps.length < 2 then r2.add_error .noTimestamps 50      -- lines 132-134
      else
        let dur := timestamps.getLastD 0 - timestamps.headD 0          -- line 137
        let gaps := deltasOf timestamps                                -- lines 150-152
        let fpsValues := (gaps.filter (fun g => 0 < g)).map (fun g => 1 / g)  -- lines 154-155
        let largeGaps := (gaps.filter (fun g => MAX_FRAME_GAP < g)).length  -- lines 157-161
        infoShortCapture (infoLargeCapture (infoHighFps (infoLowFps    -- lines 301-311
          (tailPhase fs.tailEvents                                     -- lines 179-295
            (checkMono                                                 -- lines 170-173
              (checkLargeGaps                                          -- lines 167-168
                (setMinMaxFps                                          -- lines 163-165
                  (gapWarnLoop                                         -- lines 150-161
                    (setAvgFps (checkMinDuration (setDuration r2 dur)))  -- lines 137-143
                    gaps 1)
                  fpsValues)
                largeGaps)
              timestamps)))))

/-! ### FramePacket and SessionStats (`frame_processor.py:21-68`) -/

/-- `FramePacket` (`frame_processor.py:21-33`); the JPEG payload is
opaque, only its length feeds the stats, and `imu`/`camera_intrinsics`
matter only through their truthiness in `process_frame`. -/
structure FramePacket where
  timestamp : ℚ
  frameLen : ℕ
  hasImu : Bool
  hasIntrinsics : Bool
  received_at : ℚ

/-- `FramePacket.latency_ms` (`frame_processor.py:30-33`). -/
def FramePacket.latency_ms (p : FramePacket) : ℚ :=
  (p.received_at - p.timestamp) * 1000

/-- `SessionStats` (`frame_processor.py:36-44`), with the dataclass
defaults. -/
structure SessionStats where
  session_id : String
  start_time : ℚ
  frame_count : ℕ := 0
  total_bytes : ℕ := 0
  last_frame_time : ℚ := 0
  latencies : List ℚ := []
  deriving DecidableEq

/-- `SessionStats.duration` (`frame_processor.py:46-48`); `time.time()`
is passed in as `now`. -/
def SessionStats.duration (s : SessionStats) (now : ℚ) : ℚ :=
  now - s.start_time

/-- `SessionStats.fps` (`frame_processor.py:50-54`). -/
def SessionStats.fps (s : SessionStats) (now : ℚ) : ℚ :=
  if 0 < s.duration now then (s.frame_count : ℚ) / s.duration now else 0

/-- Python's `lst[-100:]`: the most recent (at most) 100 entries. -/
def recentHundred (l : List ℚ) : List ℚ := l.drop (l.length - 100)

/-- `SessionStats.avg_latency_ms` (`frame_processor.py:56-62`): mean of
`latencies[-100:]` when the stored list is nonempty, else `0.0`. -/
def SessionStats.avg_latency_ms (s : SessionStats) : ℚ :=
  if s.latencies = [] then 0
  else (recentHundred s.latencies).sum / ((recentHundred s.latencies).length : ℚ)

/-- `SessionStats.bandwidth_mbps` (`frame_processor.py:64-68`). -/
def SessionStats.bandwidth_mbps (s : SessionStats) (now : ℚ) : ℚ :=
  if 0 < s.duration now then ((s.total_bytes : ℚ) * 8) / (s.duration now * 1000000) else 0

/-! ### FrameProcessor (`frame_processor.py:71-331`)

State is passed explicitly; `time.time()` / generated ids enter as
parameters.  Items on the save queue are kept as (timestamp, byte count)
pairs — the queued path string is a formatting of the timestamp and no
claim reads it.  The background worker thread and the filesystem writes
are environment effects; the points where `process_frame`'s `try` block
can raise are enumerated by `FailPoint`. -/

/-- Which fallible sub-step of `process_frame`'s `try` block raises, if
any.  The stats updates (`frame_processor.py:214-218`) are pure attribute
mutations and cannot raise. -/
inductive FailPoint
  | queuePut          -- line 226
  | imuWrite          -- lines 229-241
  | rgbTxtWrite       -- lines 244-246
  | intrinsicsWrite   -- lines 249-252
  deriving DecidableEq

/-- The mutable state of a `FrameProcessor` (`frame_processor.py:82-99`);
`session_path` is represented by the session id it is derived from. -/
structure FPState where
  current_session : Option String := none
  session_path : Option String := none
  stats : Option SessionStats := none
  save_queue : List (ℚ × ℕ) := []
  files_open : Bool := false
  intrinsics_saved : Bool := false
  deriving DecidableEq

/-- `FrameProcessor.create_session` (`frame_processor.py:131-165`) with
the id already resolved (the caller's explicit id, or the generated
timestamp-based one). -/
def create_session (st : FPState) (sid : String) (now : ℚ) : FPState :=
  { st with
    current_session := some sid
    session_path := some sid
    stats := some { session_id := sid, start_time := now }
    files_open := true            -- _open_files, lines 167-186
    intrinsics_saved := false }

/-- `FrameProcessor.process_frame` (`frame_processor.py:199-259`).
Returns the new state and the call's boolean result.  `autoId`/`now`
feed the implicit `create_session()` when no session is active; `fail`
says which fallible sub-step (if any) raises, in which case the
`except` branch returns `False` with all mutations made so far kept. -/
def process_frame (st : FPState) (pkt : FramePacket) (fail : Option FailPoint)
    (autoId : String) (now : ℚ) : FPState × Bool :=
  let st0 := if st.session_path = none then create_session st autoId now else st  -- lines 209-211
  match st0.stats with
  | none => (st0, false)  -- `self.stats.frame_count` raises AttributeError, caught at line 257
  | some s =>
    let s1 : SessionStats :=                                       -- lines 214-218
      { s with
        frame_count := s.frame_count + 1
        total_bytes := s.total_bytes + pkt.frameLen
        last_frame_time := pkt.timestamp
        latencies := s.latencies ++ [pkt.latency_ms] }
    let st1 := { st0 with stats := some s1 }
    if fail = some .queuePut then (st1, false)
    else
      let st2 := { st1 with save_queue := st1.save_queue ++ [(pkt.timestamp, pkt.frameLen)] }  -- line 226
      if st2.files_open ∧ pkt.hasImu = true ∧ fail = some .imuWrite then (st2, false)  -- lines 229-241
      else if st2.files_open ∧ fail = some .rgbTxtWrite then (st2, false)  -- lines 244-246
      else if st2.intrinsics_saved = false ∧ pkt.hasIntrinsics = true then  -- lines 249-253
        if fail = some .intrinsicsWrite then (st2, false)
        else ({ st2 with intrinsics_saved := true }, true)
      else (st2, true)                                             -- line 255

/-- The dictionary `FrameProcessor.get_stats` builds
(`frame_processor.py:261-275`); the `round(·, 2)` float formatting is not
modelled (it only shapes the report, and no claim depends on it). -/
structure StatsSnapshot where
  session_id : String
  frame_count : ℕ
  duration_sec : ℚ
  fps : ℚ
  avg_latency_ms : ℚ
  bandwidth_mbps : ℚ
  total_mb : ℚ
  queue_size : ℕ
  deriving DecidableEq

/-- `FrameProcessor.get_stats` (`frame_processor.py:261-275`): the empty
dictionary returned when `self.stats is None` is modelled as `none`. -/
def get_stats (st : FPState) (now : ℚ) : Option StatsSnapshot :=
  match st.stats with
  | none => none
  | some s => some
    { session_id := s.session_id
      frame_count := s.frame_count
      duration_sec := s.duration now
      fps := s.fps now
      avg_latency_ms := s.avg_latency_ms
      bandwidth_mbps := s.bandwidth_mbps now
      total_mb := (s.total_bytes : ℚ) / (1024 * 1024)
      queue_size := st.save_queue.length }

/-- `FrameProcessor.end_session` (`frame_processor.py:277-308`) after its
drain loop has been observed to finish (the loop itself is modelled by
`drainAux` below): closes files, persists final stats, clears the
current-session state.  The drained queue is empty by the loop's exit
condition. -/
def end_session (st : FPState) (now : ℚ) : FPState × Option StatsSnapshot :=
  let snap := get_stats st now
  ({ st with
      save_queue := []
      files_open := false
      current_session := none
      session_path := none
      stats := none },
   snap)

/-! ### The end_session drain loop (`frame_processor.py:286-288`)

`while not self._save_queue.empty(): time.sleep(0.1)` only ever observes
the queue; items are removed by the background worker.  `q n` records
whether the queue is observed empty at the n-th poll. -/

/-- Run the drain loop for at most `fuel` polls starting at poll index
`i`; `some k` means the loop exited at poll `k`. -/
def drainAux (q : ℕ → Bool) : ℕ → ℕ → Option ℕ
  | 0, _ => none
  | fuel + 1, i => if q i then some i else drainAux q fuel (i + 1)

/-- The drain loop terminates on observation sequence `q`. -/
def drainTerminates (q : ℕ → Bool) : Prop :=
  ∃ fuel, (drainAux q fuel 0).isSome = true

/-! ### FrameProcessor.list_sessions (`frame_processor.py:310-331`) -/

/-- One entry of `base_dir.iterdir()` as `list_sessions` inspects it:
name, directory flag, the persisted `session_stats.json` frame count when
that file exists, and the `rgb/*.jpg` count used as fallback. -/
structure DirEntry where
  name : String
  isDir : Bool
  savedStats : Option ℕ
  rgbExists : Bool
  rgbJpgCount : ℕ
  deriving DecidableEq

/-- One element of the list `list_sessions` returns. -/
structure SessionDesc where
  session_id : String
  frame_count : ℕ
  fromSavedStats : Bool
  deriving DecidableEq

/-- Build the descriptor for one directory entry
(`frame_processor.py:315-329`). -/
def toDesc (e : DirEntry) : SessionDesc :=
  match e.savedStats with
  | some n => { session_id := e.name, frame_count := n, fromSavedStats := true }
  | none =>
    { session_id := e.name
      frame_count := if e.rgbExists then e.rgbJpgCount else 0
      fromSavedStats := false }

/-- The comparison `sorted(..., key=lambda x: x["session_id"],
reverse=True)` effectively sorts with: `a` before `b` iff
`b.session_id <= a.session_id` (Python's sort is stable, and so is
insertion sort, so ties — impossible here since directory names are
unique — would keep arrival order either way). -/
def descById (a b : SessionDesc) : Prop := pyStrLe b.session_id a.session_id

instance : DecidableRel descById := fun a b =>
  inferInstanceAs (Decidable (charListLe b.session_id.data a.session_id.data = true))
/-- `FrameProcessor.list_sessions` (`frame_processor.py:310-331`); the
input list is `base_dir.iterdir()` in whatever order the OS yields it. -/
def list_sessions (entries : List DirEntry) : List SessionDesc :=
  List.insertionSort descById
    ((entries.filter (fun e => e.isDir && pyStartsWith e.name "session_")).map toDesc)

/-! ### Driver traces for process_frame (`frame_processor.py` +
`websocket_server.py` control dispatch)

The operations the connection handler can invoke on the processor,
interleaved arbitrarily. -/

/-- One call into the `FrameProcessor`. -/
inductive FPOp
  | frame (pkt : FramePacket) (fail : Option FailPoint) (autoId : String) (now : ℚ)
  | start (sid : String) (now : ℚ)     -- create_session
  | finish (now : ℚ)                   -- end_session
  | getStatsCall (now : ℚ)             -- get_stats (read-only)

/-- Run a trace of operations; returns the final state and the number of
`process_frame` calls that returned `True`. -/
def runOps (st : FPState) : List FPOp → FPState × ℕ
  | [] => (st, 0)
  | op :: rest =>
    match op with
    | .frame pkt fail autoId now =>
      let (st', ok) := process_frame st pkt fail autoId now
      let (stf, n) := runOps st' rest
      (stf, (if ok then 1 else 0) + n)
    | .start sid now =>
      runOps (create_session st sid now) rest
    | .finish now =>
      runOps (end_session st now).1 rest
    | .getStatsCall _ =>
      runOps st rest

/-- Number of `process_frame` calls in a trace. -/
def frameOpCount : List FPOp → ℕ
  | [] => 0
  | .frame _ _ _ _ :: rest => 1 + frameOpCount rest
  | _ :: rest => frameOpCount rest

/-- What `stats.frame_count` should be along a trace: every
`process_frame` call counts, successful or not, and session boundaries
reset it. -/
def fcStep (cur : Option ℕ) : FPOp → Option ℕ
  | .start _ _ => some 0
  | .finish _ => none
  | .getStatsCall _ => cur
  | .frame _ _ _ _ => some (cur.getD 0 + 1)

def expectedFC (cur : Option ℕ) : List FPOp → Option ℕ
  | [] => cur
  | op :: rest => expectedFC (fcStep cur op) rest

/-- The fresh processor state (`frame_processor.py:82-99`). -/
def initFP : FPState := {}

/-- The stats mutation every `process_frame` call performs before any
fallible sub-step (`frame_processor.py:214-218`). -/
def bumpStats (s : SessionStats) (pkt : FramePacket) : SessionStats :=
  { s with
    frame_count := s.frame_count + 1
    total_bytes := s.total_bytes + pkt.frameLen
    last_frame_time := pkt.timestamp
    latencies := s.latencies ++ [pkt.latency_ms] }

/-- A run of consecutive `process_frame` calls (each pair is the packet
and the failing sub-step, if any). -/
def runFrames (st : FPState) : List (FramePacket × Option FailPoint) → FPState
  | [] => st
  | c :: rest => runFrames (process_frame st c.1 c.2 "session_auto" 0).1 rest

/-- Recognizer for the per-occurrence large-gap warning
(`validate_capture.py:159`). -/
def VWarn.isLargeGapWarn : VWarn → Bool
  | .largeGap _ _ => true
  | _ => false

/-- Recognizer for the aggregate gaps-exceeded warning
(`validate_capture.py:168`). -/
def VWarn.isAggGapWarn : VWarn → Bool
  | .gapsExceeded _ => true
  | _ => false

/-! ### Concrete session directories used by the analysis

Each is a session directory with the given frame files; the image files
are not real JPEGs and the optional files are absent, so the
content-dependent phases report: image read error, no IMU file, no
intrinsics, no rgb.txt. -/

/-- The benign tail-event trace of a directory holding only fake frame
files. -/
def bareTail : List TailEvent :=
  [.errImageRead, .warnNoImuFile, .warnNoIntrinsics, .warnNoRgbTxt]

/-- The spec's monotonicity scenario: frame files for timestamps
1.0, 2.0, 1.5, 3.0. -/
def fsMono : SessionFS where
  name := "session_mono"
  pathExists := true
  rgbExists := true
  jpgNames := ["1.000000.jpg", "2.000000.jpg", "1.500000.jpg", "3.000000.jpg"]
  tailEvents := bareTail

/-- A directory whose filename sort order disagrees with numeric
timestamp order ("10..." sorts before "9..."). -/
def fsDecrease : SessionFS where
  name := "session_decrease"
  pathExists := true
  rgbExists := true
  jpgNames := ["10.000000.jpg", "9.000000.jpg"]
  tailEvents := bareTail

/-- A directory containing a frame at timestamp zero: its stem parses as
a float, yet the `ts > 0` filter excludes it. -/
def fsZero : SessionFS where
  name := "session_zero"
  pathExists := true
  rgbExists := true
  jpgNames := ["0.000000.jpg", "1.000000.jpg", "2.000000.jpg"]
  tailEvents := bareTail

/-- The spec's gap scenario: timestamps 0.0, 0.1, 2.6, 2.7. -/
def fsGaps : SessionFS where
  name := "session_gaps"
  pathExists := true
  rgbExists := true
  jpgNames := ["0.000000.jpg", "0.100000.jpg", "2.600000.jpg", "2.700000.jpg"]
  tailEvents := bareTail

/-- Captures directory state after ending session "session_a" (its final
stats were persisted) while an older directory "session_b" with a
lexicographically greater id also exists. -/
def entriesAfterEnd : List DirEntry :=
  [{ name := "session_b", isDir := true, savedStats := none,
     rgbExists := true, rgbJpgCount := 3 },
   { name := "session_a", isDir := true, savedStats := some 40,
     rgbExists := true, rgbJpgCount := 40 }]

/-- A packet whose frame data is 100 bytes; sent at timestamp 5,
received at 6. -/
def pktPlain : FramePacket :=
  { timestamp := 5, frameLen := 100, hasImu := false, hasIntrinsics := false,
    received_at := 6 }

/-- A trace: start a session, then one frame whose queue put raises. -/
def opsOneFail : List FPOp :=
  [.start "session_x" 0, .frame pktPlain (some .queuePut) "session_auto" 1]

/-- A packet with a 1000-second clock skew: latency 1000000 ms. -/
def pktOutlier : FramePacket :=
  { timestamp := 0, frameLen := 0, hasImu := false, hasIntrinsics := false,
    received_at := 1000 }

/-- A packet with 5 ms latency. -/
def pktNormal : FramePacket :=
  { timestamp := 0, frameLen := 0, hasImu := false, hasIntrinsics := false,
    received_at := 1/200 }

/-- 150 successful frames: 50 extreme-latency outliers, then 100 normal
ones. -/
def calls150 : List (FramePacket × Option FailPoint) :=
  List.replicate 50 (pktOutlier, none) ++ List.replicate 100 (pktNormal, none)

/-- Number of monotonicity errors in a result. -/
def monoErrCount (r : ValidationResult) : ℕ :=
  r.errors.countP (fun e => decide (e = VErr.notMonotonic))

/-- The soft-gap counter `large_gaps` (`validate_capture.py:148-161`):
both branches of the gap classification increment it, so it counts the
deltas above the soft threshold. -/
def softGapCount (fs : SessionFS) : ℕ :=
  ((deltasOf (usedTimestamps fs)).filter (fun g => MAX_FRAME_GAP < g)).length

/-- The discipline every mutation of a `ValidationResult` maintains: the
score stays within 0..100, and validity tracks exactly whether an error
was recorded. -/
def scoreValidInv (r : ValidationResult) : Prop :=
  0 ≤ r.quality_score ∧ r.quality_score ≤ 100 ∧ (r.is_valid = true ↔ r.errors = [])

/-- The `largeGap` warnings the gap loop emits, in loop order. -/
def largeGapWarnings : List ℚ → ℕ → List VWarn
  | [], _ => []
  | g :: rest, i =>
    (if MAX_FRAME_GAP_ERROR < g then [VWarn.largeGap i g] else []) ++
      largeGapWarnings rest (i + 1)

/-- The errors a tail-event trace contributes. -/
def tailErrors : List TailEvent → List VErr
  | [] => []
  | .errImageRead :: rest => VErr.imageReadError :: tailErrors rest
  | _ :: rest => tailErrors rest

/-- The warnings a tail-event trace contributes. -/
def tailWarnings : List TailEvent → List VWarn
  | [] => []
  | e :: rest =>
    (match e with
      | .warnResolutionChanged => [VWarn.resolutionChanged]
      | .warnResolutionInconsistent idx => [VWarn.resolutionInconsistentAt idx]
      | .warnImuEmpty => [VWarn.imuEmpty]
      | .warnLowImuRate => [VWarn.lowImuRate]
      | .warnImuStartsLate => [VWarn.imuStartsLate]
      | .warnImuEndsEarly => [VWarn.imuEndsEarly]
      | .warnImuReadError => [VWarn.imuReadError]
      | .warnNoImuFile => [VWarn.noImuFile]
      | .warnMissingIntrinsicFields m => [VWarn.missingIntrinsicFields m]
      | .warnIntrinsicsResolutionMismatch => [VWarn.intrinsicsResolutionMismatch]
      | .warnIntrinsicsReadError => [VWarn.intrinsicsReadError]
      | .warnNoIntrinsics => [VWarn.noIntrinsicsFile]
      | .warnRgbTxtMismatch n => [VWarn.rgbTxtCountMismatch n]
      | .warnRgbTxtReadError => [VWarn.rgbTxtReadError]
      | .warnNoRgbTxt => [VWarn.noRgbTxt]
      | _ => []) ++ tailWarnings rest

/-! ### Order lemmas for the Python string comparison -/

theorem charListLe_refl : ∀ cs : List Char, charListLe cs cs = true
  | [] => rfl
  | c :: cs => by
    simp only [charListLe, lt_irrefl, if_false]
    exact charListLe_refl cs

theorem charListLe_total :
    ∀ a b : List Char, charListLe a b = true ∨ charListLe b a = true
  | [], _ => Or.inl rfl
  | _ :: _, [] => Or.inr rfl
  | a :: as, b :: bs => by
    by_cases hab : a.toNat < b.toNat
    · left; simp [charListLe, hab]
    · by_cases hba : b.toNat < a.toNat
      · right; simp [charListLe, hba, Nat.lt_asymm hba]
      · have heq : b.toNat = a.toNat := Nat.le_antisymm (Nat.le_of_not_lt hab) (Nat.le_of_not_lt hba)
        rcases charListLe_total as bs with h | h
        · left; simp [charListLe, hab, hba, h]
        · right; simp [charListLe, heq, lt_irrefl, h]

theorem charListLe_trans :
    ∀ a b c : List Char, charListLe a b = true → charListLe b c = true →
      charListLe a c = true
  | [], _, _, _, _ => rfl
  | _ :: _, [], _, h, _ => by cases h
  | _ :: _, _ :: _, [], _, h => by cases h
  | a :: as, b :: bs, c :: cs, hab, hbc => by
    simp only [charListLe] at hab hbc ⊢
    by_cases h1 : a.toNat < b.toNat
    · by_cases h2 : b.toNat < c.toNat
      · simp [Nat.lt_trans h1 h2]
      · by_cases h2' : c.toNat < b.toNat
        · simp [h2, h2'] at hbc
        · have : c.toNat = b.toNat := Nat.le_antisymm (Nat.le_of_not_lt h2) (Nat.le_of_not_lt h2')
          simp [this, h1]
    · by_cases h1' : b.toNat < a.toNat
      · simp [h1, h1'] at hab
      · have hba : b.toNat = a.toNat := Nat.le_antisymm (Nat.le_of_not_lt h1) (Nat.le_of_not_lt h1')
        simp only [h1, if_false, h1', if_false] at hab
        by_cases h2 : b.toNat < c.toNat
        · simp [hba ▸ h2]
        · by_cases h2' : c.toNat < b.toNat
          · simp [h2, h2'] at hbc
          · simp only [h2, if_false, h2', if_false] at hbc
            have hcb : c.toNat = b.toNat := Nat.le_antisymm (Nat.le_of_not_lt h2) (Nat.le_of_not_lt h2')
            simp [hba ▸ hcb, charListLe_trans as bs cs hab hbc]

theorem charListLe_antisymm :
    ∀ a b : List Char, charListLe a b = true → charListLe b a = true → a = b
  | [], [], _, _ => rfl
  | [], _ :: _, _, h => by cases h
  | _ :: _, [], h, _ => by cases h
  | a :: as, b :: bs, hab, hba => by
    simp only [charListLe] at hab hba
    by_cases h1 : a.toNat < b.toNat
    · simp [Nat.lt_asymm h1, h1] at hba
    · by_cases h1' : b.toNat < a.toNat
      · simp [h1, h1'] at hab
      · have hba' : b.toNat = a.toNat := Nat.le_antisymm (Nat.le_of_not_lt h1) (Nat.le_of_not_lt h1')
        simp only [h1, if_false, h1', if_false] at hab
        simp only [hba', lt_irrefl, if_false] at hba
        have h2 : a = b := Char.eq_of_val_eq (UInt32.ext_iff.mpr hba'.symm)
        rw [h2, charListLe_antisymm as bs hab hba]

instance : IsTotal String pyStrLe := ⟨fun a b => charListLe_total a.data b.data⟩
instance : IsTrans String pyStrLe := ⟨fun _ _ _ => charListLe_trans _ _ _⟩

instance : IsTotal SessionDesc descById :=
  ⟨fun a b => charListLe_total b.session_id.data a.session_id.data⟩
instance : IsTrans SessionDesc descById :=
  ⟨fun _ _ _ h1 h2 => charListLe_trans _ _ _ h2 h1⟩

/-! ### Effect characterizations of the validation phases -/

@[simp] theorem add_error_errors (r : ValidationResult) (e : VErr) (p : ℤ) :
    (r.add_error e p).errors = r.errors ++ [e] := rfl

@[simp] theorem add_error_warnings (r : ValidationResult) (e : VErr) (p : ℤ) :
    (r.add_error e p).warnings = r.warnings := rfl

@[simp] theorem add_error_frame_count (r : ValidationResult) (e : VErr) (p : ℤ) :
    (r.add_error e p).frame_count = r.frame_count := rfl

@[simp] theorem add_warning_errors (r : ValidationResult) (w : VWarn) (p : ℤ) :
    (r.add_warning w p).errors = r.errors := rfl

@[simp] theorem add_warning_warnings (r : ValidationResult) (w : VWarn) (p : ℤ) :
    (r.add_warning w p).warnings = r.warnings ++ [w] := rfl

@[simp] theorem add_warning_frame_count (r : ValidationResult) (w : VWarn) (p : ℤ) :
    (r.add_warning w p).frame_count = r.frame_count := rfl

@[simp] theorem add_info_errors (r : ValidationResult) (i : VInfo) :
    (r.add_info i).errors = r.errors := rfl

@[simp] theorem add_info_warnings (r : ValidationResult) (i : VInfo) :
    (r.add_info i).warnings = r.warnings := rfl

@[simp] theorem add_info_frame_count (r : ValidationResult) (i : VInfo) :
    (r.add_info i).frame_count = r.frame_count := rfl

theorem setDuration_eq (r : ValidationResult) (dur : ℚ) :
    setDuration r dur = { r with duration_sec := dur } := rfl

@[simp] theorem checkMinDuration_errors (r : ValidationResult) :
    (checkMinDuration r).errors =
      r.errors ++ (if r.duration_sec < MIN_DURATION then [VErr.tooShort r.duration_sec] else []) := by
  unfold checkMinDuration; split <;> simp

@[simp] theorem checkMinDuration_warnings (r : ValidationResult) :
    (checkMinDuration r).warnings = r.warnings := by
  unfold checkMinDuration; split <;> simp

@[simp] theorem checkMinDuration_frame_count (r : ValidationResult) :
    (checkMinDuration r).frame_count = r.frame_count := by
  unfold checkMinDuration; split <;> simp

@[simp] theorem setAvgFps_errors (r : ValidationResult) :
    (setAvgFps r).errors = r.errors := by
  unfold setAvgFps; split <;> rfl

@[simp] theorem setAvgFps_warnings (r : ValidationResult) :
    (setAvgFps r).warnings = r.warnings := by
  unfold setAvgFps; split <;> rfl

@[simp] theorem setAvgFps_frame_count (r : ValidationResult) :
    (setAvgFps r).frame_count = r.frame_count := by
  unfold setAvgFps; split <;> rfl

@[simp] theorem setMinMaxFps_errors (r : ValidationResult) (l : List ℚ) :
    (setMinMaxFps r l).errors = r.errors := by
  unfold setMinMaxFps; split <;> rfl

@[simp] theorem setMinMaxFps_warnings (r : ValidationResult) (l : List ℚ) :
    (setMinMaxFps r l).warnings = r.warnings := by
  unfold setMinMaxFps; split <;> rfl

@[simp] theorem setMinMaxFps_frame_count (r : ValidationResult) (l : List ℚ) :
    (setMinMaxFps r l).frame_count = r.frame_count := by
  unfold setMinMaxFps; split <;> rfl

@[simp] theorem checkLargeGaps_errors (r : ValidationResult) (n : ℕ) :
    (checkLargeGaps r n).errors = r.errors := by
  unfold checkLargeGaps; split <;> simp

@[simp] theorem checkLargeGaps_warnings (r : ValidationResult) (n : ℕ) :
    (checkLargeGaps r n).warnings =
      r.warnings ++ (if 0 < n then [VWarn.gapsExceeded n] else []) := by
  unfold checkLargeGaps; split <;> simp

@[simp] theorem checkLargeGaps_frame_count (r : ValidationResult) (n : ℕ) :
    (checkLargeGaps r n).frame_count = r.frame_count := by
  unfold checkLargeGaps; split <;> simp

@[simp] theorem checkMono_errors (r : ValidationResult) (ts : List ℚ) :
    (checkMono r ts).errors =
      r.errors ++ (if monoCheck ts = true then [] else [VErr.notMonotonic]) := by
  unfold checkMono; split <;> simp

@[simp] theorem checkMono_warnings (r : ValidationResult) (ts : List ℚ) :
    (checkMono r ts).warnings = r.warnings := by
  unfold checkMono; split <;> simp

@[simp] theorem checkMono_frame_count (r : ValidationResult) (ts : List ℚ) :
    (checkMono r ts).frame_count = r.frame_count := by
  unfold checkMono; split <;> simp

theorem gapWarnLoop_errors (gaps : List ℚ) :
    ∀ (r : ValidationResult) (i : ℕ), (gapWarnLoop r gaps i).errors = r.errors := by
  induction gaps with
  | nil => intro r i; rfl
  | cons g rest ih =>
    intro r i
    unfold gapWarnLoop
    rw [ih]
    split <;> simp

theorem gapWarnLoop_warnings (gaps : List ℚ) :
    ∀ (r : ValidationResult) (i : ℕ),
      (gapWarnLoop r gaps i).warnings = r.warnings ++ largeGapWarnings gaps i := by
  induction gaps with
  | nil => intro r i; simp [gapWarnLoop, largeGapWarnings]
  | cons g rest ih =>
    intro r i
    unfold gapWarnLoop largeGapWarnings
    rw [ih]
    split <;> simp

theorem gapWarnLoop_frame_count (gaps : List ℚ) :
    ∀ (r : ValidationResult) (i : ℕ), (gapWarnLoop r gaps i).frame_count = r.frame_count := by
  induction gaps with
  | nil => intro r i; rfl
  | cons g rest ih =>
    intro r i
    unfold gapWarnLoop
    rw [ih]
    split <;> simp

theorem applyTailEvent_errors (r : ValidationResult) (e : TailEvent) :
    (applyTailEvent r e).errors = r.errors ++ tailErrors [e] := by
  cases e <;> simp [applyTailEvent, tailErrors]

theorem applyTailEvent_warnings (r : ValidationResult) (e : TailEvent) :
    (applyTailEvent r e).warnings = r.warnings ++ tailWarnings [e] := by
  cases e <;> simp [applyTailEvent, tailWarnings]

theorem applyTailEvent_frame_count (r : ValidationResult) (e : TailEvent) :
    (applyTailEvent r e).frame_count = r.frame_count := by
  cases e <;> simp [applyTailEvent]

theorem tailPhase_errors (evs : List TailEvent) :
    ∀ r : ValidationResult, (tailPhase evs r).errors = r.errors ++ tailErrors evs := by
  induction evs with
  | nil => intro r; simp [tailPhase, tailErrors]
  | cons e rest ih =>
    intro r
    have h1 : tailPhase (e :: rest) r = tailPhase rest (applyTailEvent r e) := rfl
    rw [h1, ih, applyTailEvent_errors]
    have h2 : tailErrors (e :: rest) = tailErrors [e] ++ tailErrors rest := by
      cases e <;> simp [tailErrors]
    rw [h2, List.append_assoc]

theorem tailPhase_warnings (evs : List TailEvent) :
    ∀ r : ValidationResult, (tailPhase evs r).warnings = r.warnings ++ tailWarnings evs := by
  induction evs with
  | nil => intro r; simp [tailPhase, tailWarnings]
  | cons e rest ih =>
    intro r
    have h1 : tailPhase (e :: rest) r = tailPhase rest (applyTailEvent r e) := rfl
    rw [h1, ih, applyTailEvent_warnings]
    have h2 : tailWarnings (e :: rest) = tailWarnings [e] ++ tailWarnings rest := by
      cases e <;> simp [tailWarnings]
    rw [h2, List.append_assoc]

theorem tailPhase_frame_count (evs : List TailEvent) :
    ∀ r : ValidationResult, (tailPhase evs r).frame_count = r.frame_count := by
  induction evs with
  | nil => intro r; rfl
  | cons e rest ih =>
    intro r
    have h1 : tailPhase (e :: rest) r = tailPhase rest (applyTailEvent r e) := rfl
    rw [h1, ih, applyTailEvent_frame_count]

@[simp] theorem infoLowFps_errors (r : ValidationResult) :
    (infoLowFps r).errors = r.errors := by unfold infoLowFps; split <;> rfl

@[simp] theorem infoLowFps_warnings (r : ValidationResult) :
    (infoLowFps r).warnings = r.warnings := by unfold infoLowFps; split <;> rfl

@[simp] theorem infoLowFps_frame_count (r : ValidationResult) :
    (infoLowFps r).frame_count = r.frame_count := by unfold infoLowFps; split <;> rfl

@[simp] theorem infoHighFps_errors (r : ValidationResult) :
    (infoHighFps r).errors = r.errors := by unfold infoHighFps; split <;> rfl

@[simp] theorem infoHighFps_warnings (r : ValidationResult) :
    (infoHighFps r).warnings = r.warnings := by unfold infoHighFps; split <;> rfl

@[simp] theorem infoHighFps_frame_count (r : ValidationResult) :
    (infoHighFps r).frame_count = r.frame_count := by unfold infoHighFps; split <;> rfl

@[simp] theorem infoLargeCapture_errors (r : ValidationResult) :
    (infoLargeCapture r).errors = r.errors := by unfold infoLargeCapture; split <;> rfl

@[simp] theorem infoLargeCapture_warnings (r : ValidationResult) :
    (infoLargeCapture r).warnings = r.warnings := by unfold infoLargeCapture; split <;> rfl

@[simp] theorem infoLargeCapture_frame_count (r : ValidationResult) :
    (infoLargeCapture r).frame_count = r.frame_count := by unfold infoLargeCapture; split <;> rfl

@[simp] theorem infoShortCapture_errors (r : ValidationResult) :
    (infoShortCapture r).errors = r.errors := by unfold infoShortCapture; split <;> rfl

@[simp] theorem infoShortCapture_warnings (r : ValidationResult) :
    (infoShortCapture r).warnings = r.warnings := by unfold infoShortCapture; split <;> rfl

@[simp] theorem infoShortCapture_frame_count (r : ValidationResult) :
    (infoShortCapture r).frame_count = r.frame_count := by unfold infoShortCapture; split <;> rfl

/-- `monoCheck` is vacuously true on sequences shorter than two. -/
theorem monoCheck_of_short (ts : List ℚ) (h : ts.length < 2) : monoCheck ts = true := by
  match ts, h with
  | [], _ => rfl
  | [_], _ => rfl
  | _ :: _ :: _, h => simp at h; omega

@[simp] theorem setDuration_errors (r : ValidationResult) (dur : ℚ) :
    (setDuration r dur).errors = r.errors := rfl

@[simp] theorem setDuration_warnings (r : ValidationResult) (dur : ℚ) :
    (setDuration r dur).warnings = r.warnings := rfl

@[simp] theorem setDuration_frame_count (r : ValidationResult) (dur : ℚ) :
    (setDuration r dur).frame_count = r.frame_count := rfl

@[simp] theorem setDuration_duration (r : ValidationResult) (dur : ℚ) :
    (setDuration r dur).duration_sec = dur := rfl

theorem tailErrors_no_mono (evs : List TailEvent) :
    (tailErrors evs).countP (fun e => decide (e = VErr.notMonotonic)) = 0 := by
  induction evs with
  | nil => rfl
  | cons e rest ih => cases e <;> simpa [tailErrors] using ih

/-- `sorted(...)` does not change how many frames there are. -/
theorem sortedFrames_length (fs : SessionFS) :
    (sortedFrames fs).length = fs.jpgNames.length :=
  List.length_insertionSort _ _

/-- `frame_count` is the raw count of listed `*.jpg` files whenever the
directory structure exists (`validate_capture.py:116`), and 0 when
validation bailed out before listing. -/
theorem validate_session_frame_count (fs : SessionFS) :
    (validate_session fs).frame_count =
      if fs.pathExists = true ∧ fs.rgbExists = true then fs.jpgNames.length else 0 := by
  unfold validate_session
  by_cases hp : fs.pathExists = true
  · by_cases hr : fs.rgbExists = true
    · simp [hp, hr, apply_ite ValidationResult.frame_count, sortedFrames_length,
        gapWarnLoop_frame_count, tailPhase_frame_count]
    · have hr' : fs.rgbExists = false := Bool.not_eq_true _ ▸ hr
      simp [hp, hr']
  · have hp' : fs.pathExists = false := Bool.not_eq_true _ ▸ hp
    simp [hp']

/-- The monotonicity check contributes exactly one error when the derived
timestamp sequence has a decrease, and none otherwise; no other check
ever emits that error. -/
theorem validate_session_monoErrCount (fs : SessionFS)
    (hp : fs.pathExists = true) (hr : fs.rgbExists = true) :
    monoErrCount (validate_session fs) =
      if monoCheck (usedTimestamps fs) = true then 0 else 1 := by
  unfold validate_session monoErrCount
  simp only [hp, hr]
  rw [if_neg (by simp), if_neg (by simp)]
  split
  · next hlen =>
    have hframes : sortedFrames fs = [] := List.length_eq_zero.mp hlen
    have hts : usedTimestamps fs = [] := by
      unfold usedTimestamps; rw [hframes]; rfl
    simp [hts, monoCheck]
  · split
    · next h0 hlen =>
      have hmc : monoCheck (usedTimestamps fs) = true :=
        monoCheck_of_short _ (by omega)
      rw [hmc, if_pos rfl]
      split <;> simp
    · next h0 hlen =>
      simp only [infoShortCapture_errors, infoLargeCapture_errors, infoHighFps_errors,
        infoLowFps_errors, tailPhase_errors, checkMono_errors, checkLargeGaps_errors,
        setMinMaxFps_errors, gapWarnLoop_errors, setAvgFps_errors, checkMinDuration_errors,
        setDuration_errors]
      rw [List.countP_append, List.countP_append, List.countP_append, tailErrors_no_mono]
      have hfront : (if (sortedFrames fs).length < MIN_FRAMES
          then (({ session_id := fs.name, frame_count := (sortedFrames fs).length
                  : ValidationResult }).add_error
            (.tooFewFrames (sortedFrames fs).length) 30)
          else { session_id := fs.name, frame_count := (sortedFrames fs).length }).errors.countP
            (fun e => decide (e = VErr.notMonotonic)) = 0 := by
        split <;> simp
      rw [hfront]
      split <;> split <;> simp_all <;> (split <;> simp_all)

/-- Warnings of a completed temporal run: the per-occurrence large-gap
warnings, the single aggregate warning, then whatever the
content-dependent phases warned about. -/
theorem validate_session_warnings (fs : SessionFS)
    (hp : fs.pathExists = true) (hr : fs.rgbExists = true)
    (h2 : 2 ≤ (usedTimestamps fs).length) :
    (validate_session fs).warnings =
      largeGapWarnings (deltasOf (usedTimestamps fs)) 1 ++
        (if 0 < softGapCount fs then [VWarn.gapsExceeded (softGapCount fs)] else []) ++
        tailWarnings fs.tailEvents := by
  unfold validate_session
  simp only [hp, hr]
  rw [if_neg (by simp), if_neg (by simp)]
  split
  · next hlen =>
    exfalso
    have hframes : sortedFrames fs = [] := List.length_eq_zero.mp hlen
    have hts : usedTimestamps fs = [] := by
      unfold usedTimestamps; rw [hframes]; rfl
    rw [hts] at h2
    simp at h2
  · split
    · next h0 hlen => omega
    · next h0 hlen =>
      simp only [infoShortCapture_warnings, infoLargeCapture_warnings, infoHighFps_warnings,
        infoLowFps_warnings, tailPhase_warnings, checkMono_warnings, checkLargeGaps_warnings,
        setMinMaxFps_warnings, gapWarnLoop_warnings, setAvgFps_warnings,
        checkMinDuration_warnings, setDuration_warnings]
      have hfront : (if (sortedFrames fs).length < MIN_FRAMES
          then (({ session_id := fs.name, frame_count := (sortedFrames fs).length
                  : ValidationResult }).add_error
            (.tooFewFrames (sortedFrames fs).length) 30)
          else { session_id := fs.name, frame_count := (sortedFrames fs).length }).warnings
            = [] := by
        split <;> rfl
      rw [hfront]
      simp [softGapCount]

/-! ### Quality-score and validity invariant (`validate_capture.py:34-73`) -/

theorem scoreValidInv_add_error {r : ValidationResult} (h : scoreValidInv r)
    {e : VErr} {p : ℤ} (hp : 0 ≤ p) : scoreValidInv (r.add_error e p) := by
  obtain ⟨h1, h2, _⟩ := h
  refine ⟨le_max_left _ _, max_le (by norm_num) (by omega), ?_⟩
  simp [ValidationResult.add_error]

theorem scoreValidInv_add_warning {r : ValidationResult} (h : scoreValidInv r)
    {w : VWarn} {p : ℤ} (hp : 0 ≤ p) : scoreValidInv (r.add_warning w p) := by
  obtain ⟨h1, h2, h3⟩ := h
  exact ⟨le_max_left _ _, max_le (by norm_num) (by omega), h3⟩

theorem scoreValidInv_add_info {r : ValidationResult} (h : scoreValidInv r)
    {i : VInfo} : scoreValidInv (r.add_info i) := h

theorem scoreValidInv_setDuration {r : ValidationResult} (h : scoreValidInv r) (dur : ℚ) :
    scoreValidInv (setDuration r dur) := h

theorem scoreValidInv_checkMinDuration {r : ValidationResult} (h : scoreValidInv r) :
    scoreValidInv (checkMinDuration r) := by
  unfold checkMinDuration
  split
  · exact scoreValidInv_add_error h (by norm_num)
  · exact h

theorem scoreValidInv_setAvgFps {r : ValidationResult} (h : scoreValidInv r) :
    scoreValidInv (setAvgFps r) := by
  unfold setAvgFps; split <;> exact h

theorem scoreValidInv_gapWarnLoop (gaps : List ℚ) :
    ∀ (r : ValidationResult) (i : ℕ), scoreValidInv r → scoreValidInv (gapWarnLoop r gaps i) := by
  induction gaps with
  | nil => intro r i h; exact h
  | cons g rest ih =>
    intro r i h
    unfold gapWarnLoop
    apply ih
    split
    · exact scoreValidInv_add_warning h (by norm_num)
    · exact h

theorem scoreValidInv_setMinMaxFps {r : ValidationResult} (h : scoreValidInv r)
    (l : List ℚ) : scoreValidInv (setMinMaxFps r l) := by
  unfold setMinMaxFps; split <;> exact h

theorem scoreValidInv_checkLargeGaps {r : ValidationResult} (h : scoreValidInv r)
    (n : ℕ) : scoreValidInv (checkLargeGaps r n) := by
  unfold checkLargeGaps
  split
  · exact scoreValidInv_add_warning h (by norm_num)
  · exact h

theorem scoreValidInv_checkMono {r : ValidationResult} (h : scoreValidInv r)
    (ts : List ℚ) : scoreValidInv (checkMono r ts) := by
  unfold checkMono
  split
  · exact h
  · exact scoreValidInv_add_error h (by norm_num)

theorem scoreValidInv_applyTailEvent {r : ValidationResult} (h : scoreValidInv r)
    (e : TailEvent) : scoreValidInv (applyTailEvent r e) := by
  cases e <;>
    first
      | exact h
      | exact scoreValidInv_add_error h (by norm_num)
      | exact scoreValidInv_add_warning h (by norm_num)
      | exact scoreValidInv_add_warning (r := { r with resolution_consistent := false }) h
          (by norm_num)
      | exact scoreValidInv_add_warning (r := { r with imu_synced := false }) h (by norm_num)

theorem scoreValidInv_tailPhase (evs : List TailEvent) :
    ∀ r : ValidationResult, scoreValidInv r → scoreValidInv (tailPhase evs r) := by
  induction evs with
  | nil => intro r h; exact h
  | cons e rest ih =>
    intro r h
    exact ih _ (scoreValidInv_applyTailEvent h e)

theorem scoreValidInv_infoPhases {r : ValidationResult} (h : scoreValidInv r) :
    scoreValidInv (infoShortCapture (infoLargeCapture (infoHighFps (infoLowFps r)))) := by
  unfold infoShortCapture infoLargeCapture infoHighFps infoLowFps
  split <;> split <;> split <;> split <;> exact h

/-- Every branch of `validate_session` maintains the score/validity
discipline. -/
theorem scoreValidInv_validate_session (fs : SessionFS) :
    scoreValidInv (validate_session fs) := by
  have hbase : ∀ n fc, scoreValidInv
      { session_id := n, frame_count := fc : ValidationResult } := by
    intro n fc
    exact ⟨by norm_num, by norm_num, by simp⟩
  unfold validate_session
  dsimp only
  split
  · exact scoreValidInv_add_error (by simpa using hbase fs.name 0) (by norm_num)
  · split
    · exact scoreValidInv_add_error (by simpa using hbase fs.name 0) (by norm_num)
    · split
      · exact scoreValidInv_add_error (hbase _ _) (by norm_num)
      · split
        · refine scoreValidInv_add_error ?_ (by norm_num)
          split
          · exact scoreValidInv_add_error (hbase _ _) (by norm_num)
          · exact hbase _ _
        · apply scoreValidInv_infoPhases
          apply scoreValidInv_tailPhase
          apply scoreValidInv_checkMono
          apply scoreValidInv_checkLargeGaps
          apply scoreValidInv_setMinMaxFps
          apply scoreValidInv_gapWarnLoop
          apply scoreValidInv_setAvgFps
          apply scoreValidInv_checkMinDuration
          apply scoreValidInv_setDuration
          split
          · exact scoreValidInv_add_error (hbase _ _) (by norm_num)
          · exact hbase _ _

/-! ### Helper lemmas about the FrameProcessor embedding -/

theorem process_frame_stats_eq (st : FPState) (pkt : FramePacket)
    (fail : Option FailPoint) (a : String) (n : ℚ) (sp : String) (s : SessionStats)
    (hsp : st.session_path = some sp) (hs : st.stats = some s) :
    (process_frame st pkt fail a n).1.stats = some (bumpStats s pkt) ∧
    (process_frame st pkt fail a n).1.session_path = some sp := by
  unfold process_frame
  rw [if_neg (by rw [hsp]; simp)]
  dsimp only
  rw [hs]
  dsimp only
  constructor <;> (repeat' split) <;> first | rfl | exact hsp

theorem process_frame_fc (st : FPState) (pkt : FramePacket) (fail : Option FailPoint)
    (a : String) (n : ℚ) (h : st.session_path = none ↔ st.stats = none) :
    ((process_frame st pkt fail a n).1.stats).map (·.frame_count) =
      some ((st.stats.map (·.frame_count)).getD 0 + 1) ∧
    (process_frame st pkt fail a n).1.stats ≠ none ∧
    (process_frame st pkt fail a n).1.session_path ≠ none := by
  by_cases hpath : st.session_path = none
  · have hstats : st.stats = none := h.mp hpath
    have hres := process_frame_stats_eq (create_session st a n) pkt fail a n a
      { session_id := a, start_time := n } rfl rfl
    have hcreate : process_frame st pkt fail a n =
        process_frame (create_session st a n) pkt fail a n := by
      unfold process_frame
      rw [if_pos hpath, if_neg (by simp [create_session])]
    rw [hcreate, hres.1, hres.2]
    simp [hstats, bumpStats]
  · obtain ⟨sp, hsp⟩ := Option.ne_none_iff_exists'.mp hpath
    have hstats : st.stats ≠ none := fun hn => hpath (h.mpr hn)
    obtain ⟨s, hs⟩ := Option.ne_none_iff_exists'.mp hstats
    have hres := process_frame_stats_eq st pkt fail a n sp s hsp hs
    rw [hres.1, hres.2]
    simp [hs, bumpStats]

/-- Along any operation trace, `frame_count` equals the number of
`process_frame` calls since the last session boundary — independent of
whether those calls returned `True` — and the number of `True` returns
never exceeds the number of calls. -/
theorem runOps_frame_count : ∀ (ops : List FPOp) (st : FPState),
    (st.session_path = none ↔ st.stats = none) →
    ((runOps st ops).1.stats).map (·.frame_count) =
        expectedFC (st.stats.map (·.frame_count)) ops ∧
      (runOps st ops).2 ≤ frameOpCount ops := by
  intro ops
  induction ops with
  | nil => intro st h; exact ⟨rfl, Nat.le_refl 0⟩
  | cons op rest ih =>
    intro st h
    cases op with
    | frame pkt fail a n =>
      have hpf := process_frame_fc st pkt fail a n h
      have hwf : ((process_frame st pkt fail a n).1.session_path = none ↔
          (process_frame st pkt fail a n).1.stats = none) := by
        constructor
        · intro hc; exact absurd hc hpf.2.2
        · intro hc; exact absurd hc hpf.2.1
      have ihr := ih (process_frame st pkt fail a n).1 hwf
      refine ⟨?_, ?_⟩
      · show ((runOps (process_frame st pkt fail a n).1 rest).1.stats).map (·.frame_count) =
          expectedFC (some ((st.stats.map (·.frame_count)).getD 0 + 1)) rest
        rw [ihr.1, hpf.1]
      · show (if (process_frame st pkt fail a n).2 then 1 else 0) +
            (runOps (process_frame st pkt fail a n).1 rest).2 ≤
            1 + frameOpCount rest
        have := ihr.2
        split <;> omega
    | start sid now =>
      have ihr := ih (create_session st sid now) (by simp [create_session])
      refine ⟨?_, ihr.2⟩
      show ((runOps (create_session st sid now) rest).1.stats).map (·.frame_count) =
        expectedFC (some 0) rest
      rw [ihr.1]
      rfl
    | finish now =>
      have ihr := ih (end_session st now).1 (by simp [end_session])
      refine ⟨?_, ihr.2⟩
      show ((runOps (end_session st now).1 rest).1.stats).map (·.frame_count) =
        expectedFC none rest
      rw [ihr.1]
      rfl
    | getStatsCall now =>
      exact ih st h

/-! ### Helper lemmas for the rolling latency average -/

/-- `latencies[-100:]` of a list with a length-100 tail is exactly that
tail: the earlier samples do not participate. -/
theorem recentHundred_append (pre post : List ℚ) (h : post.length = 100) :
    recentHundred (pre ++ post) = post := by
  unfold recentHundred
  have hlen : (pre ++ post).length - 100 = pre.length := by
    simp [List.length_append, h]
  rw [hlen, List.drop_left]

theorem avg_latency_of_split (s : SessionStats) (pre post : List ℚ)
    (hl : s.latencies = pre ++ post) (h : post.length = 100) :
    s.avg_latency_ms = post.sum / 100 := by
  have hne : pre ++ post ≠ [] := by
    intro hc
    rcases List.append_eq_nil.mp hc with ⟨-, h2⟩
    rw [h2] at h
    simp at h
  unfold SessionStats.avg_latency_ms
  rw [hl, recentHundred_append pre post h, if_neg hne, h]
  norm_num

/-- Running consecutive `process_frame` calls from an active session
appends one latency sample per call to the stored list — nothing is ever
removed — and bumps `frame_count` once per call. -/
theorem runFrames_stats : ∀ (calls : List (FramePacket × Option FailPoint))
    (st : FPState) (sp : String) (s : SessionStats),
    st.session_path = some sp → st.stats = some s →
    (runFrames st calls).stats.map (·.latencies) =
        some (s.latencies ++ calls.map (fun c => c.1.latency_ms)) ∧
      (runFrames st calls).stats.map (·.frame_count) =
        some (s.frame_count + calls.length) := by
  intro calls
  induction calls with
  | nil => intro st sp s hsp hs; simp [runFrames, hs]
  | cons c rest ih =>
    intro st sp s hsp hs
    have hpf := process_frame_stats_eq st c.1 c.2 "session_auto" 0 sp s hsp hs
    have ihr := ih (process_frame st c.1 c.2 "session_auto" 0).1 sp (bumpStats s c.1)
      hpf.2 hpf.1
    have h1 : runFrames st (c :: rest) =
        runFrames (process_frame st c.1 c.2 "session_auto" 0).1 rest := rfl
    rw [h1, ihr.1, ihr.2]
    constructor
    · simp [bumpStats]
    · simp [bumpStats]; omega

/-! ### Helper lemmas for the drain loop -/

theorem drainAux_isSome_imp (q : ℕ → Bool) :
    ∀ (fuel i : ℕ), (drainAux q fuel i).isSome = true → ∃ n, q n = true := by
  intro fuel
  induction fuel with
  | zero => intro i h; simp [drainAux] at h
  | succ f ih =>
    intro i h
    by_cases hq : q i = true
    · exact ⟨i, hq⟩
    · have hq' : q i = false := Bool.not_eq_true _ ▸ hq
      simp only [drainAux, hq', Bool.false_eq_true, if_false] at h
      exact ih (i + 1) h

theorem drainAux_const_false : ∀ (fuel i : ℕ), drainAux (fun _ => false) fuel i = none := by
  intro fuel
  induction fuel with
  | zero => intro i; rfl
  | succ f ih => intro i; simp [drainAux, ih]

theorem drainAux_isSome_of_eventually :
    ∀ (q : ℕ → Bool) (n i : ℕ), q (i + n) = true → (drainAux q (n + 1) i).isSome = true := by
  intro q n
  induction n with
  | zero =>
    intro i h
    simp only [Nat.add_zero] at h
    simp [drainAux, h]
  | succ m ih =>
    intro i h
    unfold drainAux
    by_cases hq : q i
    · simp [hq]
    · simp only [hq, Bool.false_eq_true, if_false]
      exact ih (i + 1) (by rw [← h]; ring_nf)

/-! ### Helper lemmas for list_sessions ordering -/

theorem toDesc_session_id (e : DirEntry) : (toDesc e).session_id = e.name := by
  unfold toDesc
  cases e.savedStats <;> rfl

theorem list_sessions_nodup_ids (entries : List DirEntry)
    (hnodup : (entries.map (·.name)).Nodup) :
    ((list_sessions entries).map (·.session_id)).Nodup := by
  have hperm : List.Perm (list_sessions entries)
      ((entries.filter (fun e => e.isDir && pyStartsWith e.name "session_")).map toDesc) :=
    List.perm_insertionSort _ _
  have hmm : (((entries.filter (fun e => e.isDir && pyStartsWith e.name "session_")).map
      toDesc).map (fun d => d.session_id)) =
      (entries.filter (fun e => e.isDir && pyStartsWith e.name "session_")).map
        (fun e => e.name) := by
    rw [List.map_map]
    exact List.map_congr_left (fun e _ => toDesc_session_id e)
  have hsub : (((entries.filter (fun e => e.isDir && pyStartsWith e.name "session_")).map
      (fun e => e.name))).Sublist (entries.map (·.name)) :=
    (List.filter_sublist entries).map _
  have hbase : (((entries.filter (fun e => e.isDir && pyStartsWith e.name "session_")).map
      (fun e => e.name))).Nodup := hnodup.sublist hsub
  have hiff := (hperm.map (fun d => d.session_id)).nodup_iff
  rw [hmm] at hiff
  exact hiff.mpr hbase

/-- The returned list is sorted descending (weakly) by id. -/
theorem list_sessions_sorted (entries : List DirEntry) :
    List.Pairwise descById (list_sessions entries) :=
  List.sorted_insertionSort descById _

/-- With distinct directory names the descending order is strict. -/
theorem list_sessions_strict_desc (entries : List DirEntry)
    (hnodup : (entries.map (·.name)).Nodup) :
    List.Pairwise (fun a b => pyStrLt b.session_id a.session_id) (list_sessions entries) := by
  have hs := list_sessions_sorted entries
  have hne : List.Pairwise (fun a b : SessionDesc => a.session_id ≠ b.session_id)
      (list_sessions entries) :=
    List.pairwise_map.mp (list_sessions_nodup_ids entries hnodup)
  exact (hs.and hne).imp (fun h => ⟨h.1, h.2.symm⟩)

/-- Everything in the returned list compares `<=` (Python string order)
against the head: the head is the maximal session id. -/
theorem list_sessions_head_max (entries : List DirEntry) :
    ∀ h ∈ (list_sessions entries).head?, ∀ d ∈ list_sessions entries,
      pyStrLe d.session_id h.session_id := by
  cases hl : list_sessions entries with
  | nil => intro h hmem; simp at hmem
  | cons x t =>
    intro h hmem d hd
    simp only [List.head?_cons, Option.mem_def, Option.some.injEq] at hmem
    subst hmem
    have hp := list_sessions_sorted entries
    rw [hl] at hp
    rcases List.mem_cons.mp hd with rfl | hdt
    · exact charListLe_refl _
    · exact (List.pairwise_cons.mp hp).1 d hdt

/-! ### Gap-warning counting lemmas -/

theorem largeGapWarnings_countP_large (gaps : List ℚ) :
    ∀ i : ℕ, (largeGapWarnings gaps i).countP VWarn.isLargeGapWarn =
      (gaps.filter (fun g => decide (MAX_FRAME_GAP_ERROR < g))).length := by
  induction gaps with
  | nil => intro i; rfl
  | cons g rest ih =>
    intro i
    unfold largeGapWarnings
    rw [List.countP_append, ih]
    by_cases hg : MAX_FRAME_GAP_ERROR < g
    · simp [hg, VWarn.isLargeGapWarn]
      omega
    · simp [hg]

theorem largeGapWarnings_countP_agg (gaps : List ℚ) :
    ∀ i : ℕ, (largeGapWarnings gaps i).countP VWarn.isAggGapWarn = 0 := by
  induction gaps with
  | nil => intro i; rfl
  | cons g rest ih =>
    intro i
    unfold largeGapWarnings
    rw [List.countP_append, ih]
    split <;> simp [VWarn.isAggGapWarn]

theorem tailWarnings_countP_large (evs : List TailEvent) :
    (tailWarnings evs).countP VWarn.isLargeGapWarn = 0 := by
  induction evs with
  | nil => rfl
  | cons e rest ih =>
    have h1 : tailWarnings (e :: rest) = tailWarnings [e] ++ tailWarnings rest := by
      cases e <;> simp [tailWarnings]
    rw [h1, List.countP_append, ih]
    cases e <;> simp [tailWarnings, VWarn.isLargeGapWarn]

theorem tailWarnings_countP_agg (evs : List TailEvent) :
    (tailWarnings evs).countP VWarn.isAggGapWarn = 0 := by
  induction evs with
  | nil => rfl
  | cons e rest ih =>
    have h1 : tailWarnings (e :: rest) = tailWarnings [e] ++ tailWarnings rest := by
      cases e <;> simp [tailWarnings]
    rw [h1, List.countP_append, ih]
    cases e <;> simp [tailWarnings, VWarn.isAggGapWarn]

/-- When the temporal checks never ran (fewer than two usable
timestamps), no warning at all is emitted. -/
theorem validate_session_warnings_nil (fs : SessionFS)
    (hp : fs.pathExists = true) (hr : fs.rgbExists = true)
    (hts : (usedTimestamps fs).length < 2) :
    (validate_session fs).warnings = [] := by
  unfold validate_session
  simp only [hp, hr]
  rw [if_neg (by simp), if_neg (by simp)]
  split
  · rfl
  · split <;> rfl

/-- `deltasOf` of a short sequence is empty. -/
theorem deltasOf_short (ts : List ℚ) (h : ts.length < 2) : deltasOf ts = [] := by
  match ts, h with
  | [], _ => rfl
  | [_], _ => rfl
  | _ :: _ :: _, h => simp at h; omega

/-- The per-occurrence large-gap warning count is exactly the number of
deltas above the hard threshold. -/
theorem validate_session_countP_large (fs : SessionFS)
    (hp : fs.pathExists = true) (hr : fs.rgbExists = true) :
    (validate_session fs).warnings.countP VWarn.isLargeGapWarn =
      ((deltasOf (usedTimestamps fs)).filter
        (fun g => decide (MAX_FRAME_GAP_ERROR < g))).length := by
  by_cases h2 : 2 ≤ (usedTimestamps fs).length
  · rw [validate_session_warnings fs hp hr h2]
    rw [List.countP_append, List.countP_append, largeGapWarnings_countP_large,
      tailWarnings_countP_large]
    split <;> simp [VWarn.isLargeGapWarn]
  · rw [validate_session_warnings_nil fs hp hr (by omega),
      deltasOf_short _ (by omega)]
    rfl

/-- The aggregate warning is emitted exactly once when any delta exceeds
the soft threshold, and never otherwise. -/
theorem validate_session_countP_agg (fs : SessionFS)
    (hp : fs.pathExists = true) (hr : fs.rgbExists = true) :
    (validate_session fs).warnings.countP VWarn.isAggGapWarn =
      if 0 < softGapCount fs then 1 else 0 := by
  by_cases h2 : 2 ≤ (usedTimestamps fs).length
  · rw [validate_session_warnings fs hp hr h2]
    rw [List.countP_append, List.countP_append, largeGapWarnings_countP_agg,
      tailWarnings_countP_agg]
    split <;> simp [VWarn.isAggGapWarn]
  · rw [validate_session_warnings_nil fs hp hr (by omega)]
    have : softGapCount fs = 0 := by
      unfold softGapCount
      rw [deltasOf_short _ (by omega)]
      rfl
    rw [this]
    rfl

/-! ### Concrete evaluations

The filename layer (sorting, stems) is kernel-computable; the rational
values are finished off by `norm_num` because the library's `Rat`
arithmetic is irreducible by design. -/

theorem parse_ts_0 : parse_timestamp "0.000000.jpg" = 0 := by
  have h : parse_timestamp "0.000000.jpg" = ((0:ℕ):ℚ) + ((0:ℕ):ℚ)/(10:ℚ)^(6:ℕ) := rfl
  rw [h]; norm_num

theorem parse_ts_01 : parse_timestamp "0.100000.jpg" = 1/10 := by
  have h : parse_timestamp "0.100000.jpg" = ((0:ℕ):ℚ) + ((100000:ℕ):ℚ)/(10:ℚ)^(6:ℕ) := rfl
  rw [h]; norm_num

theorem parse_ts_1 : parse_timestamp "1.000000.jpg" = 1 := by
  have h : parse_timestamp "1.000000.jpg" = ((1:ℕ):ℚ) + ((0:ℕ):ℚ)/(10:ℚ)^(6:ℕ) := rfl
  rw [h]; norm_num

theorem parse_ts_15 : parse_timestamp "1.500000.jpg" = 3/2 := by
  have h : parse_timestamp "1.500000.jpg" = ((1:ℕ):ℚ) + ((500000:ℕ):ℚ)/(10:ℚ)^(6:ℕ) := rfl
  rw [h]; norm_num

theorem parse_ts_2 : parse_timestamp "2.000000.jpg" = 2 := by
  have h : parse_timestamp "2.000000.jpg" = ((2:ℕ):ℚ) + ((0:ℕ):ℚ)/(10:ℚ)^(6:ℕ) := rfl
  rw [h]; norm_num

theorem parse_ts_26 : parse_timestamp "2.600000.jpg" = 13/5 := by
  have h : parse_timestamp "2.600000.jpg" = ((2:ℕ):ℚ) + ((600000:ℕ):ℚ)/(10:ℚ)^(6:ℕ) := rfl
  rw [h]; norm_num

theorem parse_ts_27 : parse_timestamp "2.700000.jpg" = 27/10 := by
  have h : parse_timestamp "2.700000.jpg" = ((2:ℕ):ℚ) + ((700000:ℕ):ℚ)/(10:ℚ)^(6:ℕ) := rfl
  rw [h]; norm_num

theorem parse_ts_3 : parse_timestamp "3.000000.jpg" = 3 := by
  have h : parse_timestamp "3.000000.jpg" = ((3:ℕ):ℚ) + ((0:ℕ):ℚ)/(10:ℚ)^(6:ℕ) := rfl
  rw [h]; norm_num

theorem parse_ts_9 : parse_timestamp "9.000000.jpg" = 9 := by
  have h : parse_timestamp "9.000000.jpg" = ((9:ℕ):ℚ) + ((0:ℕ):ℚ)/(10:ℚ)^(6:ℕ) := rfl
  rw [h]; norm_num

theorem parse_ts_10 : parse_timestamp "10.000000.jpg" = 10 := by
  have h : parse_timestamp "10.000000.jpg" = ((10:ℕ):ℚ) + ((0:ℕ):ℚ)/(10:ℚ)^(6:ℕ) := rfl
  rw [h]; norm_num

/-- Sorting the monotonicity scenario's directory listing interleaves the
out-of-order file back into numeric order. -/
theorem sortedFrames_fsMono : sortedFrames fsMono =
    ["1.000000.jpg", "1.500000.jpg", "2.000000.jpg", "3.000000.jpg"] := rfl

theorem usedTimestamps_fsMono : usedTimestamps fsMono = [1, 3/2, 2, 3] := by
  unfold usedTimestamps
  rw [sortedFrames_fsMono]
  simp only [List.map]
  rw [parse_ts_1, parse_ts_15, parse_ts_2, parse_ts_3]
  norm_num [List.filter]

/-- "10.000000.jpg" sorts lexicographically before "9.000000.jpg". -/
theorem sortedFrames_fsDecrease : sortedFrames fsDecrease =
    ["10.000000.jpg", "9.000000.jpg"] := rfl

theorem usedTimestamps_fsDecrease : usedTimestamps fsDecrease = [10, 9] := by
  unfold usedTimestamps
  rw [sortedFrames_fsDecrease]
  simp only [List.map]
  rw [parse_ts_10, parse_ts_9]
  norm_num [List.filter]

theorem sortedFrames_fsZero : sortedFrames fsZero =
    ["0.000000.jpg", "1.000000.jpg", "2.000000.jpg"] := rfl

theorem usedTimestamps_fsZero : usedTimestamps fsZero = [1, 2] := by
  unfold usedTimestamps
  rw [sortedFrames_fsZero]
  simp only [List.map]
  rw [parse_ts_0, parse_ts_1, parse_ts_2]
  norm_num [List.filter]

theorem sortedFrames_fsGaps : sortedFrames fsGaps =
    ["0.000000.jpg", "0.100000.jpg", "2.600000.jpg", "2.700000.jpg"] := rfl

theorem usedTimestamps_fsGaps : usedTimestamps fsGaps = [1/10, 13/5, 27/10] := by
  unfold usedTimestamps
  rw [sortedFrames_fsGaps]
  simp only [List.map]
  rw [parse_ts_0, parse_ts_01, parse_ts_26, parse_ts_27]
  norm_num [List.filter]

theorem monoCheck_fsMono : monoCheck (usedTimestamps fsMono) = true := by
  rw [usedTimestamps_fsMono]
  norm_num [monoCheck]

theorem monoCheck_fsDecrease : monoCheck (usedTimestamps fsDecrease) = false := by
  rw [usedTimestamps_fsDecrease]
  norm_num [monoCheck]

theorem deltasOf_fsGaps : deltasOf (usedTimestamps fsGaps) = [5/2, 1/10] := by
  rw [usedTimestamps_fsGaps]
  norm_num [deltasOf]

/-! ### Claim theorems -/

/-- C1 (counterexample): for the session directory holding exactly the
frame files of timestamps [1.0, 2.0, 1.5, 3.0], `validate_session`
reports zero monotonicity errors, not one: line 115 sorts the directory
listing lexicographically, which puts these four names back into numeric
order before the check at line 171 runs. -/
theorem C1_counterexample :
    monoErrCount (validate_session fsMono) = 0 ∧
      ¬ monoErrCount (validate_session fsMono) = 1 := by
  have h := validate_session_monoErrCount fsMono rfl rfl
  rw [monoCheck_fsMono] at h
  simp only [if_pos rfl] at h
  exact ⟨h, by simp [h]⟩

/-- C1 (amended): for every session directory whose path and rgb/
directory exist, `validate_session` reports exactly one monotonicity
error if the timestamp sequence derived from the lexicographically
sorted filenames contains a decrease, and zero otherwise — never more
than one, regardless of how many individual decreases exist. -/
theorem C1_theorem (fs : SessionFS)
    (hp : fs.pathExists = true) (hr : fs.rgbExists = true) :
    monoErrCount (validate_session fs) =
      if monoCheck (usedTimestamps fs) = true then 0 else 1 :=
  validate_session_monoErrCount fs hp hr

/-- C1 (witness): the directory ["10.000000.jpg", "9.000000.jpg"] sorts
lexicographically to a decreasing timestamp sequence, and exactly one
monotonicity error is reported. -/
theorem C1_witness :
    fsDecrease.pathExists = true ∧ fsDecrease.rgbExists = true ∧
      monoErrCount (validate_session fsDecrease) = 1 := by
  refine ⟨rfl, rfl, ?_⟩
  have h := C1_theorem fsDecrease rfl rfl
  rw [monoCheck_fsDecrease] at h
  simpa using h

/-- C2 (counterexample): starting a session and then processing one
frame whose queue put raises gives `frame_count = 1` with zero `True`
returns — the stats update at line 215 precedes every fallible
sub-step, so a failed call is still counted. -/
theorem C2_counterexample :
    ((runOps initFP opsOneFail).1.stats).map (·.frame_count) = some 1 ∧
      (runOps initFP opsOneFail).2 = 0 ∧
      ((runOps initFP opsOneFail).1.stats).map (·.frame_count) ≠
        some (runOps initFP opsOneFail).2 := by
  refine ⟨rfl, rfl, ?_⟩
  intro h
  have h1 : ((runOps initFP opsOneFail).1.stats).map (·.frame_count) = some 1 := rfl
  have h2 : (runOps initFP opsOneFail).2 = 0 := rfl
  rw [h1, h2] at h
  simp at h

/-- C2 (amended): over every operation trace, `SessionStats.frame_count`
equals the number of `process_frame` calls made since the last session
boundary — successful or not — and the number of calls that returned
`True` never exceeds (but may fall short of) that count. -/
theorem C2_theorem (ops : List FPOp) :
    ((runOps initFP ops).1.stats).map (·.frame_count) = expectedFC none ops ∧
      (runOps initFP ops).2 ≤ frameOpCount ops :=
  runOps_frame_count ops initFP ⟨fun _ => rfl, fun _ => rfl⟩

/-- C3 (counterexample): after 150 appended samples the stored
`latencies` list holds all 150 of them — older samples are retained,
not dropped, so the stat is not memory-bounded at 100. -/
theorem C3_counterexample :
    ((runFrames (create_session initFP "session_lat" 0) calls150).stats).map
        (fun s => s.latencies.length) = some 150 ∧
      ¬ (150 : ℕ) ≤ 100 := by
  refine ⟨?_, by omega⟩
  have h := (runFrames_stats calls150 (create_session initFP "session_lat" 0)
    "session_lat" { session_id := "session_lat", start_time := 0 } rfl rfl).1
  have hlen : (calls150.map (fun c => c.1.latency_ms)).length = 150 := by
    simp [calls150]
  cases hst : (runFrames (create_session initFP "session_lat" 0) calls150).stats with
  | none => rw [hst] at h; simp at h
  | some s =>
    rw [hst] at h
    have h2 : s.latencies = [] ++ calls150.map (fun c => c.1.latency_ms) := by
      simpa using h
    simp [h2, hlen]

/-- C3 (amended): the reported average is computed over at most the most
recent 100 samples — appending earlier samples cannot move it — but the
stored list itself retains every sample: after any run of successful
`process_frame` calls from a fresh session it holds one entry per call. -/
theorem C3_theorem :
    (∀ (s : SessionStats) (pre post : List ℚ),
      s.latencies = pre ++ post → post.length = 100 →
        s.avg_latency_ms = post.sum / 100) ∧
    (∀ (calls : List (FramePacket × Option FailPoint)) (sid : String) (t0 : ℚ),
      ((runFrames (create_session initFP sid t0) calls).stats).map (·.latencies) =
        some (calls.map (fun c => c.1.latency_ms))) := by
  constructor
  · exact avg_latency_of_split
  · intro calls sid t0
    have h := (runFrames_stats calls (create_session initFP sid t0) sid
      { session_id := sid, start_time := t0 } rfl rfl).1
    simpa using h

/-- C3 (witness): with 50 outlier samples of 1000000 ms followed by 100
samples of 5 ms, the reported average is exactly 5 ms — the outliers do
not participate. -/
theorem C3_witness :
    ({ session_id := "s", start_time := 0,
       latencies := List.replicate 50 (1000000 : ℚ) ++ List.replicate 100 5 }
        : SessionStats).avg_latency_ms = 5 := by
  have h := C3_theorem.1
    { session_id := "s", start_time := 0,
      latencies := List.replicate 50 (1000000 : ℚ) ++ List.replicate 100 5 }
    (List.replicate 50 (1000000 : ℚ)) (List.replicate 100 5) rfl (by simp)
  rw [h]
  simp [List.sum_replicate]
  norm_num

/-- C4 (counterexample): the drain loop in `end_session`
(`frame_processor.py:287-288`) polls `queue.empty()` with no bound; on a
queue that is never observed empty it never terminates, so the wait is
indefinite, not bounded. -/
theorem C4_counterexample : ¬ drainTerminates (fun _ => false) := by
  rintro ⟨fuel, h⟩
  rw [drainAux_const_false] at h
  simp at h

/-- C4 (amended): `end_session`'s drain terminates exactly when the save
queue is eventually observed empty; there is no bound independent of the
queue's behaviour. -/
theorem C4_theorem (q : ℕ → Bool) :
    drainTerminates q ↔ ∃ n, q n = true := by
  constructor
  · rintro ⟨fuel, h⟩
    exact drainAux_isSome_imp q fuel 0 h
  · rintro ⟨n, hn⟩
    exact ⟨n + 1, drainAux_isSome_of_eventually q n 0 (by simpa using hn)⟩

/-- C5 (counterexample): with an existing directory "session_b" and the
just-ended session "session_a" (whose final stats were persisted),
`list_sessions` puts "session_b" first — the just-ended session is not
first because ordering is purely by id, descending. -/
theorem C5_counterexample :
    (list_sessions entriesAfterEnd).map (·.session_id) =
        ["session_b", "session_a"] ∧
      (list_sessions entriesAfterEnd).head?.map (·.session_id) ≠ some "session_a" := by
  refine ⟨by decide, ?_⟩
  intro h
  have h1 : (list_sessions entriesAfterEnd).head?.map (·.session_id) =
      some "session_b" := by decide
  rw [h1] at h
  simp at h

/-- C5 (amended): `list_sessions` always returns descriptors sorted
strictly descending by session id (directory names are unique), and the
head is the maximal id — so the just-ended session is first exactly when
its id is the lexicographic maximum, which custom ids can violate. -/
theorem C5_theorem (entries : List DirEntry)
    (hnodup : (entries.map (·.name)).Nodup) :
    List.Pairwise (fun a b => pyStrLt b.session_id a.session_id)
        (list_sessions entries) ∧
      (∀ hd ∈ (list_sessions entries).head?, ∀ d ∈ list_sessions entries,
        pyStrLe d.session_id hd.session_id) :=
  ⟨list_sessions_strict_desc entries hnodup, list_sessions_head_max entries⟩

/-- C5 (witness): the two-directory capture state has distinct names and
the theorem applies to it. -/
theorem C5_witness :
    (entriesAfterEnd.map (·.name)).Nodup ∧
      (List.Pairwise (fun a b => pyStrLt b.session_id a.session_id)
          (list_sessions entriesAfterEnd) ∧
        (∀ hd ∈ (list_sessions entriesAfterEnd).head?,
          ∀ d ∈ list_sessions entriesAfterEnd,
            pyStrLe d.session_id hd.session_id)) :=
  ⟨by decide, C5_theorem entriesAfterEnd (by decide)⟩

/-- C6 (counterexample): the frame file "0.000000.jpg" has a stem that
parses successfully as a float (0.0), yet it is excluded from the
timestamp-derived checks, because the filter at line 129 keeps only
values strictly greater than zero; it still counts toward
`frame_count`. -/
theorem C6_counterexample :
    (parseFloat? (stemOf "0.000000.jpg".data)).isSome = true ∧
      usedTimestamps fsZero = [1, 2] ∧
      (validate_session fsZero).frame_count = 3 := by
  refine ⟨rfl, usedTimestamps_fsZero, ?_⟩
  rw [validate_session_frame_count fsZero]
  simp [fsZero]

/-- C6 (amended): every listed image file counts toward `frame_count`;
a file is excluded from the timestamp-derived checks iff its parsed
timestamp is not strictly positive — parse failures map to 0.0 and are
therefore excluded, but so is any successfully parsed value `<= 0`. -/
theorem C6_theorem (fs : SessionFS)
    (hp : fs.pathExists = true) (hr : fs.rgbExists = true) :
    (validate_session fs).frame_count = fs.jpgNames.length ∧
      (usedTimestamps fs).length =
        (fs.jpgNames.filter (fun nm => decide (0 < parse_timestamp nm))).length ∧
      (∀ nm : String, parseFloat? (stemOf nm.data) = none → parse_timestamp nm = 0) := by
  refine ⟨?_, ?_, ?_⟩
  · rw [validate_session_frame_count fs]
    simp [hp, hr]
  · unfold usedTimestamps sortedFrames
    rw [← List.countP_eq_length_filter, ← List.countP_eq_length_filter,
      List.countP_map, (List.perm_insertionSort pyStrLe fs.jpgNames).countP_eq]
    rfl
  · intro nm h
    unfold parse_timestamp
    rw [h]
    rfl

/-- C6 (witness): the theorem applied to the zero-timestamp directory. -/
theorem C6_witness :
    fsZero.pathExists = true ∧ fsZero.rgbExists = true ∧
      (validate_session fsZero).frame_count = fsZero.jpgNames.length := by
  exact ⟨rfl, rfl, (C6_theorem fsZero rfl rfl).1⟩

/-- C7: in general a delta above the hard threshold (2.0 s) yields one
per-occurrence warning each, and any delta above the soft threshold
(0.5 s) yields the single aggregate warning exactly once; concretely,
for frames at [0.0, 0.1, 2.6, 2.7] the 2.5 s delta produces both the
per-occurrence warning (carrying 5/2) and the aggregate warning counting
one gap, and the 0.1 s deltas produce neither (the 0.0 frame itself is
excluded by the `ts > 0` filter, so only one 0.1 s delta is even
computed). -/
theorem C7_theorem :
    (∀ fs : SessionFS, fs.pathExists = true → fs.rgbExists = true →
      (validate_session fs).warnings.countP VWarn.isLargeGapWarn =
          ((deltasOf (usedTimestamps fs)).filter
            (fun g => decide (MAX_FRAME_GAP_ERROR < g))).length ∧
        (validate_session fs).warnings.countP VWarn.isAggGapWarn =
          (if 0 < softGapCount fs then 1 else 0)) ∧
    ((validate_session fsGaps).warnings.filter VWarn.isLargeGapWarn =
        [.largeGap 1 (5/2)] ∧
      (validate_session fsGaps).warnings.filter VWarn.isAggGapWarn =
        [.gapsExceeded 1]) := by
  constructor
  · intro fs hp hr
    exact ⟨validate_session_countP_large fs hp hr, validate_session_countP_agg fs hp hr⟩
  · have h2 : 2 ≤ (usedTimestamps fsGaps).length := by
      rw [usedTimestamps_fsGaps]; norm_num
    have hw := validate_session_warnings fsGaps rfl rfl h2
    have hlgw : largeGapWarnings (deltasOf (usedTimestamps fsGaps)) 1 =
        [VWarn.largeGap 1 (5/2)] := by
      rw [deltasOf_fsGaps]
      norm_num [largeGapWarnings, MAX_FRAME_GAP_ERROR]
    have hsoft : softGapCount fsGaps = 1 := by
      unfold softGapCount
      rw [deltasOf_fsGaps]
      norm_num [List.filter, MAX_FRAME_GAP]
    rw [hw, hlgw, hsoft]
    constructor <;>
      simp [tailWarnings, bareTail, VWarn.isLargeGapWarn, VWarn.isAggGapWarn,
        List.filter_append, List.filter]

/-- C7 (witness): for the [0.0, 0.1, 2.6, 2.7] directory the general
counts evaluate to exactly one per-occurrence warning and exactly one
aggregate warning. -/
theorem C7_witness :
    fsGaps.pathExists = true ∧ fsGaps.rgbExists = true ∧
      (validate_session fsGaps).warnings.countP VWarn.isLargeGapWarn = 1 ∧
      (validate_session fsGaps).warnings.countP VWarn.isAggGapWarn = 1 := by
  refine ⟨rfl, rfl, ?_, ?_⟩
  · have h := (C7_theorem.1 fsGaps rfl rfl).1
    rw [h, deltasOf_fsGaps]
    norm_num [List.filter, MAX_FRAME_GAP_ERROR]
  · have h := (C7_theorem.1 fsGaps rfl rfl).2
    have hsoft : softGapCount fsGaps = 1 := by
      unfold softGapCount
      rw [deltasOf_fsGaps]
      norm_num [List.filter, MAX_FRAME_GAP]
    rw [h, hsoft]
    rfl

/-- C8: the quality score starts at 100, every error/warning subtracts
its penalty through `max 0 (score - penalty)` — flooring at 0 — and for
every session directory the final score lies in 0..100. -/
theorem C8_theorem :
    (∀ (r : ValidationResult) (e : VErr) (p : ℤ),
        (r.add_error e p).quality_score = max 0 (r.quality_score - p)) ∧
      (∀ (r : ValidationResult) (w : VWarn) (p : ℤ),
        (r.add_warning w p).quality_score = max 0 (r.quality_score - p)) ∧
      (∀ s : String, ({ session_id := s } : ValidationResult).quality_score = 100) ∧
      (∀ fs : SessionFS,
        0 ≤ (validate_session fs).quality_score ∧
          (validate_session fs).quality_score ≤ 100) := by
  refine ⟨fun _ _ _ => rfl, fun _ _ _ => rfl, fun _ => rfl, fun fs => ?_⟩
  have h := scoreValidInv_validate_session fs
  exact ⟨h.1, h.2.1⟩

/-- C9: for every session directory, `is_valid` is true iff no error was
recorded; warnings and info notes never change `is_valid`. -/
theorem C9_theorem :
    (∀ fs : SessionFS,
        ((validate_session fs).is_valid = true ↔ (validate_session fs).errors = [])) ∧
      (∀ (r : ValidationResult) (w : VWarn) (p : ℤ),
        (r.add_warning w p).is_valid = r.is_valid) ∧
      (∀ (r : ValidationResult) (i : VInfo), (r.add_info i).is_valid = r.is_valid) :=
  ⟨fun fs => (scoreValidInv_validate_session fs).2.2, fun _ _ _ => rfl, fun _ _ => rfl⟩

/-- C10: the stats accessors are total — `get_stats` returns the empty
record when no session is active, and the derived metrics return 0.0
when the duration is not positive or no samples exist; when samples do
exist, the divisor of the rolling average is positive. -/
theorem C10_theorem :
    (∀ (st : FPState) (now : ℚ), st.stats = none → get_stats st now = none) ∧
      (∀ (s : SessionStats) (now : ℚ), s.duration now ≤ 0 →
        s.fps now = 0 ∧ s.bandwidth_mbps now = 0) ∧
      (∀ s : SessionStats, s.latencies = [] → s.avg_latency_ms = 0) ∧
      (∀ s : SessionStats, s.latencies ≠ [] →
        0 < (recentHundred s.latencies).length ∧
          s.avg_latency_ms =
            (recentHundred s.latencies).sum /
              ((recentHundred s.latencies).length : ℚ)) := by
  refine ⟨?_, ?_, ?_, ?_⟩
  · intro st now h
    unfold get_stats
    rw [h]
  · intro s now h
    unfold SessionStats.fps SessionStats.bandwidth_mbps
    rw [if_neg (not_lt.mpr h), if_neg (not_lt.mpr h)]
    exact ⟨rfl, rfl⟩
  · intro s h
    unfold SessionStats.avg_latency_ms
    rw [if_pos h]
  · intro s h
    refine ⟨?_, ?_⟩
    · unfold recentHundred
      rw [List.length_drop]
      have hpos : 0 < s.latencies.length := List.length_pos.mpr h
      omega
    · unfold SessionStats.avg_latency_ms
      rw [if_neg h]

/-- C10 (witness): the accessors evaluated at concrete states — no
session, a non-positive duration, an empty sample list, a singleton
sample list. -/
theorem C10_witness :
    get_stats initFP 0 = none ∧
      ({ session_id := "w", start_time := 5 } : SessionStats).fps 0 = 0 ∧
      ({ session_id := "w", start_time := 5 } : SessionStats).bandwidth_mbps 0 = 0 ∧
      ({ session_id := "w", start_time := 5 } : SessionStats).avg_latency_ms = 0 ∧
      0 < (recentHundred ({ session_id := "w", start_time := 5, latencies := [7] }
        : SessionStats).latencies).length := by
  have hd : ({ session_id := "w", start_time := 5 } : SessionStats).duration 0 ≤ 0 := by
    unfold SessionStats.duration
    norm_num
  have h2 := C10_theorem.2.1 { session_id := "w", start_time := 5 } 0 hd
  exact ⟨C10_theorem.1 initFP 0 rfl, h2.1, h2.2,
    C10_theorem.2.2.1 _ rfl,
    (C10_theorem.2.2.2 { session_id := "w", start_time := 5, latencies := [7] }
      (by simp)).1⟩

end Phone2Splat
